import Mathlib

/-!
Verification of the planetscale-go client excerpt: the deploy-requests
service (`deploy_requests.go`) and the branch-passwords service (known
here through its tests, `passwords_test.go`, and the spec).

The Go code is embedded shallowly:
* JSON values are an inductive `Json`.
* Go's `(value, error)` return pairs become explicit `Option`/record
  results; a Go `nil` slice is `Option.none` on a `List`.
* The HTTP client is a record holding the request-construction failure
  mode (Go's `Client.newRequest` only fails from the client's own bad
  base configuration, independent of the call arguments) and the
  transport function used by `Client.Do`.
* Every service operation additionally returns the list of requests it
  handed to the transport, so that round-trip counts are provable.
-/

/-- JSON values, as decoded by Go's `encoding/json`.  Numbers are kept as
integers; no claim touches fractional numeric payloads. -/
inductive Json where
  | null
  | bool (b : Bool)
  | num (n : Int)
  | str (s : String)
  | arr (elems : List Json)
  | obj (fields : List (String × Json))

/-- Field lookup in a JSON object; `none` on non-objects and absent keys.
Mirrors Go's decoder matching a struct tag against the input object. -/
def Json.lookup : Json → String → Option Json
  | .obj fields, k => List.lookup k fields
  | _, _ => none

/-- Key list of a JSON object (empty for non-objects). -/
def Json.objKeys : Json → List String
  | .obj fields => fields.map Prod.fst
  | _ => []

/-- A Go `error` value, identified by its message. -/
structure GoError where
  msg : String
deriving DecidableEq

/-- Model of `errors.Wrap(err, message)` from github.com/pkg/errors: the wrapped
error's message is `message + ": " + err.Error()`. -/
def errorsWrap (e : GoError) (message : String) : GoError :=
  ⟨message ++ ": " ++ e.msg⟩

/-- HTTP methods used by the client. -/
inductive Method where
  | GET
  | POST
  | PATCH
  | PUT
  | DELETE
deriving DecidableEq

/-- An HTTP request as built by `Client.newRequest`: method, path, and the
JSON-marshalled body (`none` when the Go code passes a nil body). -/
structure Request where
  method : Method
  path : String
  body : Option Json

/-- An HTTP response as produced by `Client.Do`; only its decoded JSON
body is relevant to the service layer. -/
structure Response where
  body : Json

/-- The shared client.  `newRequestErr` models the only failure mode of
`Client.newRequest` (an invalid base configuration, fixed per client and
independent of the arguments); `transport` models `Client.Do`. -/
structure Client where
  newRequestErr : Option GoError
  transport : Request → Except GoError Response

/-- Model of `Client.newRequest(method, path, body)`: fails iff the client's base
configuration is bad, otherwise yields the request. -/
def Client.newRequest (c : Client) (m : Method) (path : String)
    (body : Option Json) : Except GoError Request :=
  match c.newRequestErr with
  | some e => .error e
  | none => .ok ⟨m, path, body⟩

/-- Result of a Go operation returning `(*T, error)`: `value` is the
possibly-nil pointer, `error` the possibly-nil error, and `trace` records
each request handed to `Client.Do`, in order. -/
structure GoResult (α : Type) where
  value : Option α
  error : Option GoError
  trace : List Request

/-- Result of a Go operation returning `([]*T, error)`: `slice = none`
models a nil Go slice, `some l` a non-nil slice with elements `l`. -/
structure GoListResult (α : Type) where
  slice : Option (List α)
  error : Option GoError
  trace : List Request

/-- Modelled from the spec: `databasesAPIPath` is defined outside this
excerpt; §4.3 gives the collection path as
`{organization}/{database}/{resource-plural}`, so the organization prefix
is the organization segment itself.  Every claim below is independent of
this definition's value. -/
def databasesAPIPath (org : String) : String :=
  org

/-- Source function `deployRequestsAPIPath(org, db)`:
`fmt.Sprintf("%s/%s/deploy-requests", databasesAPIPath(org), db)`. -/
def deployRequestsAPIPath (org db : String) : String :=
  databasesAPIPath org ++ "/" ++ db ++ "/deploy-requests"

/-- Source function `deployRequestAPIPath(org, db, number)`:
`fmt.Sprintf("%s/%s/deploy-requests/%d", databasesAPIPath(org), db, number)`.
Go's `%d` on a `uint64` is its decimal representation, `Nat.repr`. -/
def deployRequestAPIPath (org db : String) (number : Nat) : String :=
  databasesAPIPath org ++ "/" ++ db ++ "/deploy-requests/" ++ Nat.repr number

/-- Source function `deployRequestActionAPIPath(org, db, number, path)`:
`fmt.Sprintf("%s/%s", deployRequestAPIPath(org, db, number), path)`. -/
def deployRequestActionAPIPath (org db : String) (number : Nat)
    (path : String) : String :=
  deployRequestAPIPath org db number ++ "/" ++ path

/-- A Go `time.Time` as produced by unmarshalling an RFC 3339 string:
the wall-clock fields together with the zone offset in minutes
(`offsetMin = 0` for `Z`/UTC).  Go's zero `time.Time` is
January 1, year 1, 00:00:00 UTC. -/
structure GoTime where
  year : Nat
  month : Nat
  day : Nat
  hour : Nat
  minute : Nat
  second : Nat
  nsec : Nat
  offsetMin : Int
deriving DecidableEq

/-- Go's zero `time.Time`. -/
def GoTime.zero : GoTime :=
  ⟨1, 1, 1, 0, 0, 0, 0, 0⟩

/-- Numeric value of a decimal digit character. -/
def digitVal (c : Char) : Nat :=
  c.toNat - 48

/-- Parse exactly `n` decimal digits, returning their value and the rest
of the input. -/
def parseNDigits : Nat → List Char → Option (Nat × List Char)
  | 0, cs => some (0, cs)
  | _ + 1, [] => none
  | n + 1, c :: cs =>
    if c.isDigit then
      match parseNDigits n cs with
      | some (v, rest) => some (digitVal c * 10 ^ n + v, rest)
      | none => none
    else
      none

/-- Consume one expected character. -/
def expectChar (c : Char) : List Char → Option (List Char)
  | [] => none
  | c' :: cs => if c' = c then some cs else none

/-- Leap year per the proleptic Gregorian calendar, as Go's time package
uses. -/
def isLeapYear (y : Nat) : Bool :=
  y % 4 = 0 && (y % 100 ≠ 0 || y % 400 = 0)

/-- Days in a month. -/
def daysInMonth (y m : Nat) : Nat :=
  if m = 2 then
    if isLeapYear y then 29 else 28
  else if m = 4 ∨ m = 6 ∨ m = 9 ∨ m = 11 then
    30
  else
    31

/-- Fractional seconds: an optional `.` followed by at least one digit;
Go keeps at most nanosecond precision.  Returns the nanosecond count and
the rest of the input. -/
def parseFraction (cs : List Char) : Nat × List Char :=
  match cs with
  | '.' :: c :: rest =>
    if c.isDigit then
      let ds := (c :: rest).takeWhile Char.isDigit
      let rest' := (c :: rest).dropWhile Char.isDigit
      let ds9 := ds.take 9
      let v := ds9.foldl (fun acc ch => acc * 10 + digitVal ch) 0
      (v * 10 ^ (9 - ds9.length), rest')
    else
      (0, cs)
  | _ => (0, cs)

/-- Zone designator: `Z` or `±HH:MM`; yields the offset in minutes.  The
input must be fully consumed. -/
def parseZone (cs : List Char) : Option Int :=
  match cs with
  | ['Z'] => some 0
  | sign :: rest =>
    if sign = '+' ∨ sign = '-' then
      match parseNDigits 2 rest with
      | some (zh, rest1) =>
        match expectChar ':' rest1 with
        | some rest2 =>
          match parseNDigits 2 rest2 with
          | some (zm, []) =>
            if zh ≤ 23 ∧ zm ≤ 59 then
              let mins : Int := (zh * 60 + zm : Nat)
              some (if sign = '-' then -mins else mins)
            else
              none
          | _ => none
        | none => none
      | none => none
    else
      none
  | _ => none

/-- RFC 3339 timestamp parsing, as Go's `time.Time.UnmarshalJSON` applies
to the string inside the quotes:
`YYYY-MM-DDTHH:MM:SS[.fraction](Z|±HH:MM)`, with field range checks. -/
def parseRFC3339 (s : String) : Option GoTime :=
  match parseNDigits 4 s.data with
  | none => none
  | some (y, r1) =>
    match expectChar '-' r1 with
    | none => none
    | some r2 =>
      match parseNDigits 2 r2 with
      | none => none
      | some (mo, r3) =>
        match expectChar '-' r3 with
        | none => none
        | some r4 =>
          match parseNDigits 2 r4 with
          | none => none
          | some (d, r5) =>
            match expectChar 'T' r5 with
            | none => none
            | some r6 =>
              match parseNDigits 2 r6 with
              | none => none
              | some (h, r7) =>
                match expectChar ':' r7 with
                | none => none
                | some r8 =>
                  match parseNDigits 2 r8 with
                  | none => none
                  | some (mi, r9) =>
                    match expectChar ':' r9 with
                    | none => none
                    | some r10 =>
                      match parseNDigits 2 r10 with
                      | none => none
                      | some (sec, r11) =>
                        let (ns, r12) := parseFraction r11
                        match parseZone r12 with
                        | none => none
                        | some off =>
                          if 1 ≤ mo ∧ mo ≤ 12 ∧ 1 ≤ d ∧
                              d ≤ daysInMonth y mo ∧ h ≤ 23 ∧
                              mi ≤ 59 ∧ sec ≤ 59 then
                            some ⟨y, mo, d, h, mi, sec, ns, off⟩
                          else
                            none

/-- Struct `DeployRequestReview` from `deploy_requests.go`. -/
structure DeployRequestReview where
  ID : String
  Body : String
  State : String
deriving DecidableEq

/-- Struct `PerformDeployRequest`: all fields are tagged `json:"-"`. -/
structure PerformDeployRequest where
  Organization : String
  Database : String
  Number : Nat
deriving DecidableEq

/-- Struct `GetDeployRequestRequest`: all fields are tagged `json:"-"`. -/
structure GetDeployRequestRequest where
  Organization : String
  Database : String
  Number : Nat
deriving DecidableEq

/-- Struct `ListDeployRequestsRequest`. -/
structure ListDeployRequestsRequest where
  Organization : String
  Database : String
deriving DecidableEq

/-- Struct `DeployRequest` from `deploy_requests.go`; `ClosedAt` is a nullable
pointer, hence an `Option`. -/
structure DeployRequest where
  ID : String
  Branch : String
  IntoBranch : String
  Number : Nat
  DeployabilityErrors : String
  DeploymentState : String
  State : String
  Ready : Bool
  Approved : Bool
  Deployed : Bool
  Notes : String
  CreatedAt : GoTime
  UpdatedAt : GoTime
  ClosedAt : Option GoTime
deriving DecidableEq

/-- Struct `CancelDeployRequest`: all fields are tagged `json:"-"`. -/
structure CancelDeployRequest where
  Organization : String
  Database : String
  Number : Nat
deriving DecidableEq

/-- Struct `CreateDeployRequestRequest`: `Organization` and `Database` are
tagged `json:"-"`, the rest have JSON tags. -/
structure CreateDeployRequestRequest where
  Organization : String
  Database : String
  Branch : String
  IntoBranch : String
  Notes : String
deriving DecidableEq

/-- Struct `ReviewDeployRequestRequest`: `Organization`, `Database`, `Number`
are tagged `json:"-"`; `Body` and `State` have JSON tags. -/
structure ReviewDeployRequestRequest where
  Organization : String
  Database : String
  Number : Nat
  Body : String
  State : String
deriving DecidableEq

/-- Struct `CloseDeployRequestRequest`: all fields are tagged `json:"-"`. -/
structure CloseDeployRequestRequest where
  Organization : String
  Database : String
  Number : Nat
deriving DecidableEq

/-- Struct `CloseRequest`: the fixed partial-update body of `Close`. -/
structure CloseRequest where
  State : String
deriving DecidableEq

/-- Struct `deployRequestsResponse`: the list envelope `{"data": [...]}`; the
slice is nil (`none`) when the `data` key is absent or null.  Each
element is a `*DeployRequest`, so a null element decodes to an inner
`none`. -/
structure DeployRequestsResponse where
  DeployRequests : Option (List (Option DeployRequest))
deriving DecidableEq

/-- Go JSON marshalling of `CreateDeployRequestRequest`: fields tagged
`json:"-"` are omitted; the rest appear in struct order under their
tags. -/
def marshalCreateDeployRequestRequest (r : CreateDeployRequestRequest) : Json :=
  .obj [("branch", .str r.Branch), ("into_branch", .str r.IntoBranch),
    ("notes", .str r.Notes)]

/-- Go JSON marshalling of `PerformDeployRequest`: every field is tagged
`json:"-"`, so the body is the empty object. -/
def marshalPerformDeployRequest (_ : PerformDeployRequest) : Json :=
  .obj []

/-- Go JSON marshalling of `CancelDeployRequest`: every field is tagged
`json:"-"`, so the body is the empty object. -/
def marshalCancelDeployRequest (_ : CancelDeployRequest) : Json :=
  .obj []

/-- Go JSON marshalling of `ReviewDeployRequestRequest`. -/
def marshalReviewDeployRequestRequest (r : ReviewDeployRequestRequest) : Json :=
  .obj [("body", .str r.Body), ("state", .str r.State)]

/-- Go JSON marshalling of `CloseRequest`. -/
def marshalCloseRequest (r : CloseRequest) : Json :=
  .obj [("state", .str r.State)]

/-- Decode a JSON object field into a Go `string`: absent or null keeps
the zero value `""`; a non-string value is a type error. -/
def decodeStringField (j : Json) (k : String) : Except GoError String :=
  match j.lookup k with
  | none => .ok ""
  | some .null => .ok ""
  | some (.str s) => .ok s
  | some _ => .error ⟨"json: cannot unmarshal value into Go string field " ++ k⟩

/-- Decode a JSON object field into a Go `bool`. -/
def decodeBoolField (j : Json) (k : String) : Except GoError Bool :=
  match j.lookup k with
  | none => .ok false
  | some .null => .ok false
  | some (.bool b) => .ok b
  | some _ => .error ⟨"json: cannot unmarshal value into Go bool field " ++ k⟩

/-- Decode a JSON object field into a Go `uint64`: the number must be a
non-negative integer. -/
def decodeUInt64Field (j : Json) (k : String) : Except GoError Nat :=
  match j.lookup k with
  | none => .ok 0
  | some .null => .ok 0
  | some (.num n) =>
    if n < 0 then
      .error ⟨"json: cannot unmarshal negative number into Go uint64 field " ++ k⟩
    else
      .ok n.toNat
  | some _ => .error ⟨"json: cannot unmarshal value into Go uint64 field " ++ k⟩

/-- Decode a JSON object field into a Go `time.Time`: the value must be
an RFC 3339 string; absent or null keeps the zero time. -/
def decodeTimeField (j : Json) (k : String) : Except GoError GoTime :=
  match j.lookup k with
  | none => .ok GoTime.zero
  | some .null => .ok GoTime.zero
  | some (.str s) =>
    match parseRFC3339 s with
    | some t => .ok t
    | none => .error ⟨"parsing time " ++ s ++ " as RFC3339 failed in field " ++ k⟩
  | some _ => .error ⟨"json: cannot unmarshal value into Go time.Time field " ++ k⟩

/-- Decode a JSON object field into a Go `*time.Time`: absent or null
yields a nil pointer. -/
def decodeOptTimeField (j : Json) (k : String) : Except GoError (Option GoTime) :=
  match j.lookup k with
  | none => .ok none
  | some .null => .ok none
  | some (.str s) =>
    match parseRFC3339 s with
    | some t => .ok (some t)
    | none => .error ⟨"parsing time " ++ s ++ " as RFC3339 failed in field " ++ k⟩
  | some _ => .error ⟨"json: cannot unmarshal value into Go time.Time field " ++ k⟩

/-- The zero value of `DeployRequest`, as allocated by
`dr := &DeployRequest{}`. -/
def zeroDeployRequest : DeployRequest :=
  ⟨"", "", "", 0, "", "", "", false, false, false, "", GoTime.zero,
    GoTime.zero, none⟩

/-- Model of `json.Decode` into a `*DeployRequest` freshly allocated as
`&DeployRequest{}`: null leaves the zero struct; an object decodes each
tagged field; anything else is a type error. -/
def decodeDeployRequest (j : Json) : Except GoError DeployRequest :=
  match j with
  | .null => .ok zeroDeployRequest
  | .obj _ => do
    let id ← decodeStringField j "id"
    let branch ← decodeStringField j "branch"
    let intoBranch ← decodeStringField j "into_branch"
    let number ← decodeUInt64Field j "number"
    let deployabilityErrors ← decodeStringField j "deployability_errors"
    let deploymentState ← decodeStringField j "deployment_state"
    let state ← decodeStringField j "state"
    let ready ← decodeBoolField j "ready"
    let approved ← decodeBoolField j "approved"
    let deployed ← decodeBoolField j "deployed"
    let notes ← decodeStringField j "notes"
    let createdAt ← decodeTimeField j "created_at"
    let updatedAt ← decodeTimeField j "updated_at"
    let closedAt ← decodeOptTimeField j "closed_at"
    .ok ⟨id, branch, intoBranch, number, deployabilityErrors,
      deploymentState, state, ready, approved, deployed, notes,
      createdAt, updatedAt, closedAt⟩
  | _ => .error ⟨"json: cannot unmarshal value into Go value of type DeployRequest"⟩

/-- Decoding a slice element of type `*DeployRequest`: null yields a nil
pointer, otherwise a fresh struct is decoded into. -/
def decodePtrDeployRequest (j : Json) : Except GoError (Option DeployRequest) :=
  match j with
  | .null => .ok none
  | _ => (decodeDeployRequest j).map some

/-- Model of `json.Decode` into `&deployRequestsResponse{}`: the `data` key is
decoded into the `[]*DeployRequest` slice (absent/null leaves it nil). -/
def decodeDeployRequestsResponse (j : Json) :
    Except GoError DeployRequestsResponse :=
  match j with
  | .null => .ok ⟨none⟩
  | .obj _ =>
    match j.lookup "data" with
    | none => .ok ⟨none⟩
    | some .null => .ok ⟨none⟩
    | some (.arr xs) => (xs.mapM decodePtrDeployRequest).map fun l => ⟨some l⟩
    | some _ => .error ⟨"json: cannot unmarshal value into Go slice field data"⟩
  | _ => .error ⟨"json: cannot unmarshal value into Go value of type deployRequestsResponse"⟩

/-- Model of `json.Decode` into `&DeployRequestReview{}`. -/
def decodeDeployRequestReview (j : Json) : Except GoError DeployRequestReview :=
  match j with
  | .null => .ok ⟨"", "", ""⟩
  | .obj _ => do
    let id ← decodeStringField j "id"
    let body ← decodeStringField j "body"
    let state ← decodeStringField j "state"
    .ok ⟨id, body, state⟩
  | _ => .error ⟨"json: cannot unmarshal value into Go value of type DeployRequestReview"⟩

/-- Operation `deployRequestsService.Get`: GET of the single-resource path with a
nil body; the transport error is returned as-is, the request-construction
error is wrapped. -/
def deployRequestsService.Get (c : Client) (getReq : GetDeployRequestRequest) :
    GoResult DeployRequest :=
  match c.newRequest .GET
      (deployRequestAPIPath getReq.Organization getReq.Database getReq.Number)
      none with
  | .error e => ⟨none, some (errorsWrap e "error creating http request"), []⟩
  | .ok req =>
    match c.transport req with
    | .error e => ⟨none, some e, [req]⟩
    | .ok res =>
      match decodeDeployRequest res.body with
      | .error e => ⟨none, some e, [req]⟩
      | .ok dr => ⟨some dr, none, [req]⟩

/-- Operation `deployRequestsService.Close`: PATCH of the single-resource path with
the fixed `CloseRequest{State: "closed"}` body. -/
def deployRequestsService.Close (c : Client)
    (closeReq : CloseDeployRequestRequest) : GoResult DeployRequest :=
  match c.newRequest .PATCH
      (deployRequestAPIPath closeReq.Organization closeReq.Database
        closeReq.Number)
      (some (marshalCloseRequest ⟨"closed"⟩)) with
  | .error e => ⟨none, some (errorsWrap e "error creating http request"), []⟩
  | .ok req =>
    match c.transport req with
    | .error e => ⟨none, some e, [req]⟩
    | .ok res =>
      match decodeDeployRequest res.body with
      | .error e => ⟨none, some e, [req]⟩
      | .ok dr => ⟨some dr, none, [req]⟩

/-- Operation `deployRequestsService.Deploy`: POST of the `deploy` action path with
the (fully path-tagged, hence empty) `PerformDeployRequest` body. -/
def deployRequestsService.Deploy (c : Client)
    (deployReq : PerformDeployRequest) : GoResult DeployRequest :=
  match c.newRequest .POST
      (deployRequestActionAPIPath deployReq.Organization deployReq.Database
        deployReq.Number "deploy")
      (some (marshalPerformDeployRequest deployReq)) with
  | .error e => ⟨none, some (errorsWrap e "error creating http request"), []⟩
  | .ok req =>
    match c.transport req with
    | .error e => ⟨none, some e, [req]⟩
    | .ok res =>
      match decodeDeployRequest res.body with
      | .error e => ⟨none, some e, [req]⟩
      | .ok dr => ⟨some dr, none, [req]⟩

/-- Operation `deployRequestsService.Create`: POST of the collection path with the
marshalled `CreateDeployRequestRequest` body; note the source returns a
request-construction error unwrapped here. -/
def deployRequestsService.Create (c : Client)
    (createReq : CreateDeployRequestRequest) : GoResult DeployRequest :=
  match c.newRequest .POST
      (deployRequestsAPIPath createReq.Organization createReq.Database)
      (some (marshalCreateDeployRequestRequest createReq)) with
  | .error e => ⟨none, some e, []⟩
  | .ok req =>
    match c.transport req with
    | .error e => ⟨none, some e, [req]⟩
    | .ok res =>
      match decodeDeployRequest res.body with
      | .error e => ⟨none, some e, [req]⟩
      | .ok dr => ⟨some dr, none, [req]⟩

/-- Operation `deployRequestsService.CancelDeploy`: POST of the `cancel` action
path with the (fully path-tagged, hence empty) body. -/
def deployRequestsService.CancelDeploy (c : Client)
    (deployReq : CancelDeployRequest) : GoResult DeployRequest :=
  match c.newRequest .POST
      (deployRequestActionAPIPath deployReq.Organization deployReq.Database
        deployReq.Number "cancel")
      (some (marshalCancelDeployRequest deployReq)) with
  | .error e => ⟨none, some (errorsWrap e "error creating http request"), []⟩
  | .ok req =>
    match c.transport req with
    | .error e => ⟨none, some e, [req]⟩
    | .ok res =>
      match decodeDeployRequest res.body with
      | .error e => ⟨none, some e, [req]⟩
      | .ok dr => ⟨some dr, none, [req]⟩

/-- Operation `deployRequestsService.List`: GET of the collection path with a nil
body; returns the envelope's slice, which is nil when `data` was
absent/null. -/
def deployRequestsService.List (c : Client)
    (listReq : ListDeployRequestsRequest) :
    GoListResult (Option DeployRequest) :=
  match c.newRequest .GET
      (deployRequestsAPIPath listReq.Organization listReq.Database)
      none with
  | .error e => ⟨none, some (errorsWrap e "error creating http request"), []⟩
  | .ok req =>
    match c.transport req with
    | .error e => ⟨none, some e, [req]⟩
    | .ok res =>
      match decodeDeployRequestsResponse res.body with
      | .error e => ⟨none, some e, [req]⟩
      | .ok resp => ⟨resp.DeployRequests, none, [req]⟩

/-- Operation `deployRequestsService.CreateReview`: the source issues this request
with `http.MethodGet` against the `reviews` action path, with the
marshalled review body. -/
def deployRequestsService.CreateReview (c : Client)
    (reviewReq : ReviewDeployRequestRequest) : GoResult DeployRequestReview :=
  match c.newRequest .GET
      (deployRequestActionAPIPath reviewReq.Organization reviewReq.Database
        reviewReq.Number "reviews")
      (some (marshalReviewDeployRequestRequest reviewReq)) with
  | .error e => ⟨none, some (errorsWrap e "error creating http request"), []⟩
  | .ok req =>
    match c.transport req with
    | .error e => ⟨none, some e, [req]⟩
    | .ok res =>
      match decodeDeployRequestReview res.body with
      | .error e => ⟨none, some e, [req]⟩
      | .ok drr => ⟨some drr, none, [req]⟩

/-- Modelled from the spec: `DatabaseBranchPassword` lives in a file
outside this excerpt; §3 lists its fields (name, public id, username,
role, plaintext secret, created timestamp) and `passwords_test.go` fixes
the field names and JSON tags (`display_name`, `id`, `username`, `role`,
`plain_text`, `created_at`). -/
structure DatabaseBranchPassword where
  Name : String
  PublicID : String
  UserName : String
  Role : String
  PlainText : String
  CreatedAt : GoTime
deriving DecidableEq

/-- Modelled from the spec: the password-creation request, with the
path-parameter fields used by `Passwords.Create` in the tests. -/
structure DatabaseBranchPasswordRequest where
  Organization : String
  Database : String
  Branch : String
deriving DecidableEq

/-- Modelled from the spec: the password-list request used by
`Passwords.List` in the tests. -/
structure ListDatabaseBranchPasswordRequest where
  Organization : String
  Database : String
  Branch : String
deriving DecidableEq

/-- Modelled from the spec: the single-password request used by
`Passwords.Get` in the tests. -/
structure GetDatabaseBranchPasswordRequest where
  Organization : String
  Database : String
  Branch : String
  PasswordId : String
deriving DecidableEq

/-- Modelled from the spec: the password collection path, following §4.3
(`{organization}/{database}/{resource-plural}` scoped under the branch)
for the `/passwords` resource family of §6. -/
def passwordsAPIPath (org db branch : String) : String :=
  databasesAPIPath org ++ "/" ++ db ++ "/branches/" ++ branch ++ "/passwords"

/-- Modelled from the spec: the single-password path, §4.3's
single-resource rule (collection path + `/` + id). -/
def passwordAPIPath (org db branch passwordId : String) : String :=
  passwordsAPIPath org db branch ++ "/" ++ passwordId

/-- The zero value of `DatabaseBranchPassword`. -/
def zeroDatabaseBranchPassword : DatabaseBranchPassword :=
  ⟨"", "", "", "", "", GoTime.zero⟩

/-- Model of `json.Decode` into a fresh `&DatabaseBranchPassword{}`, with the JSON
tags fixed by the tests. -/
def decodeDatabaseBranchPassword (j : Json) :
    Except GoError DatabaseBranchPassword :=
  match j with
  | .null => .ok zeroDatabaseBranchPassword
  | .obj _ => do
    let name ← decodeStringField j "display_name"
    let publicId ← decodeStringField j "id"
    let userName ← decodeStringField j "username"
    let role ← decodeStringField j "role"
    let plainText ← decodeStringField j "plain_text"
    let createdAt ← decodeTimeField j "created_at"
    .ok ⟨name, publicId, userName, role, plainText, createdAt⟩
  | _ => .error ⟨"json: cannot unmarshal value into Go value of type DatabaseBranchPassword"⟩

/-- Decoding a slice element of type `*DatabaseBranchPassword`. -/
def decodePtrDatabaseBranchPassword (j : Json) :
    Except GoError (Option DatabaseBranchPassword) :=
  match j with
  | .null => .ok none
  | _ => (decodeDatabaseBranchPassword j).map some

/-- Modelled from the spec: the passwords list envelope, §6's
`data`-keyed envelope shared by list endpoints (shape fixed by
`TestPasswords_List`). -/
structure PasswordsResponse where
  Passwords : Option (List (Option DatabaseBranchPassword))
deriving DecidableEq

/-- Model of `json.Decode` into the passwords list envelope. -/
def decodePasswordsResponse (j : Json) : Except GoError PasswordsResponse :=
  match j with
  | .null => .ok ⟨none⟩
  | .obj _ =>
    match j.lookup "data" with
    | none => .ok ⟨none⟩
    | some .null => .ok ⟨none⟩
    | some (.arr xs) => (xs.mapM decodePtrDatabaseBranchPassword).map fun l => ⟨some l⟩
    | some _ => .error ⟨"json: cannot unmarshal value into Go slice field data"⟩
  | _ => .error ⟨"json: cannot unmarshal value into Go value of type passwordsResponse"⟩

/-- Modelled from the spec: `Passwords.Create` — a single POST of the
collection path (create-style verb, §4.2), body marshalled from the
request struct whose fields are all path parameters, response decoded
into a fresh password struct; same straight-line shape as every
operation of the shown service. -/
def passwordsService.Create (c : Client) (createReq : DatabaseBranchPasswordRequest) :
    GoResult DatabaseBranchPassword :=
  match c.newRequest .POST
      (passwordsAPIPath createReq.Organization createReq.Database
        createReq.Branch)
      (some (.obj [])) with
  | .error e => ⟨none, some (errorsWrap e "error creating http request"), []⟩
  | .ok req =>
    match c.transport req with
    | .error e => ⟨none, some e, [req]⟩
    | .ok res =>
      match decodeDatabaseBranchPassword res.body with
      | .error e => ⟨none, some e, [req]⟩
      | .ok pw => ⟨some pw, none, [req]⟩

/-- Modelled from the spec: `Passwords.List` — a single GET of the
collection path with a nil body, response decoded through the `data`
envelope (shape fixed by `TestPasswords_List` and
`TestPasswords_ListEmpty`). -/
def passwordsService.List (c : Client) (listReq : ListDatabaseBranchPasswordRequest) :
    GoListResult (Option DatabaseBranchPassword) :=
  match c.newRequest .GET
      (passwordsAPIPath listReq.Organization listReq.Database listReq.Branch)
      none with
  | .error e => ⟨none, some (errorsWrap e "error creating http request"), []⟩
  | .ok req =>
    match c.transport req with
    | .error e => ⟨none, some e, [req]⟩
    | .ok res =>
      match decodePasswordsResponse res.body with
      | .error e => ⟨none, some e, [req]⟩
      | .ok resp => ⟨resp.Passwords, none, [req]⟩

/-- Modelled from the spec: `Passwords.Get` — a single GET of the
single-password path with a nil body, response decoded into a fresh
password struct. -/
def passwordsService.Get (c : Client) (getReq : GetDatabaseBranchPasswordRequest) :
    GoResult DatabaseBranchPassword :=
  match c.newRequest .GET
      (passwordAPIPath getReq.Organization getReq.Database getReq.Branch
        getReq.PasswordId)
      none with
  | .error e => ⟨none, some (errorsWrap e "error creating http request"), []⟩
  | .ok req =>
    match c.transport req with
    | .error e => ⟨none, some e, [req]⟩
    | .ok res =>
      match decodeDatabaseBranchPassword res.body with
      | .error e => ⟨none, some e, [req]⟩
      | .ok pw => ⟨some pw, none, [req]⟩

theorem string_append_assoc (a b c : String) :
    a ++ b ++ c = a ++ (b ++ c) := by
  cases a
  cases b
  cases c
  simp only [HAppend.hAppend, Append.append, String.append]
  exact congrArg String.mk (List.append_assoc _ _ _)

/-- The request issued by `Get`. -/
def getRequest (x : GetDeployRequestRequest) : Request :=
  ⟨.GET, deployRequestAPIPath x.Organization x.Database x.Number, none⟩

/-- The request issued by `Close`. -/
def closeRequest (x : CloseDeployRequestRequest) : Request :=
  ⟨.PATCH, deployRequestAPIPath x.Organization x.Database x.Number,
    some (marshalCloseRequest ⟨"closed"⟩)⟩

/-- The request issued by `Deploy`. -/
def deployRequestReq (x : PerformDeployRequest) : Request :=
  ⟨.POST, deployRequestActionAPIPath x.Organization x.Database x.Number "deploy",
    some (marshalPerformDeployRequest x)⟩

/-- The request issued by `Create`. -/
def createRequest (x : CreateDeployRequestRequest) : Request :=
  ⟨.POST, deployRequestsAPIPath x.Organization x.Database,
    some (marshalCreateDeployRequestRequest x)⟩

/-- The request issued by `CancelDeploy`. -/
def cancelRequest (x : CancelDeployRequest) : Request :=
  ⟨.POST, deployRequestActionAPIPath x.Organization x.Database x.Number "cancel",
    some (marshalCancelDeployRequest x)⟩

/-- The request issued by `List`. -/
def listRequest (x : ListDeployRequestsRequest) : Request :=
  ⟨.GET, deployRequestsAPIPath x.Organization x.Database, none⟩

/-- The request issued by `CreateReview`. -/
def reviewRequest (x : ReviewDeployRequestRequest) : Request :=
  ⟨.GET, deployRequestActionAPIPath x.Organization x.Database x.Number "reviews",
    some (marshalReviewDeployRequestRequest x)⟩

/-- The request issued by `Passwords.Create`. -/
def pwCreateRequest (x : DatabaseBranchPasswordRequest) : Request :=
  ⟨.POST, passwordsAPIPath x.Organization x.Database x.Branch, some (.obj [])⟩

/-- The request issued by `Passwords.List`. -/
def pwListRequest (x : ListDatabaseBranchPasswordRequest) : Request :=
  ⟨.GET, passwordsAPIPath x.Organization x.Database x.Branch, none⟩

/-- The request issued by `Passwords.Get`. -/
def pwGetRequest (x : GetDatabaseBranchPasswordRequest) : Request :=
  ⟨.GET, passwordAPIPath x.Organization x.Database x.Branch x.PasswordId, none⟩

theorem Get_runOk (c : Client) (x : GetDeployRequestRequest)
    (h : c.newRequestErr = none) :
    deployRequestsService.Get c x =
      match c.transport (getRequest x) with
      | .error e => ⟨none, some e, [getRequest x]⟩
      | .ok res =>
        match decodeDeployRequest res.body with
        | .error e => ⟨none, some e, [getRequest x]⟩
        | .ok dr => ⟨some dr, none, [getRequest x]⟩ := by
  unfold deployRequestsService.Get Client.newRequest
  rw [h]
  all_goals rfl

theorem Get_runErr (c : Client) (x : GetDeployRequestRequest) (e : GoError)
    (h : c.newRequestErr = some e) :
    deployRequestsService.Get c x =
      ⟨none, some (errorsWrap e "error creating http request"), []⟩ := by
  unfold deployRequestsService.Get Client.newRequest
  rw [h]
  all_goals rfl

theorem Close_runOk (c : Client) (x : CloseDeployRequestRequest)
    (h : c.newRequestErr = none) :
    deployRequestsService.Close c x =
      match c.transport (closeRequest x) with
      | .error e => ⟨none, some e, [closeRequest x]⟩
      | .ok res =>
        match decodeDeployRequest res.body with
        | .error e => ⟨none, some e, [closeRequest x]⟩
        | .ok dr => ⟨some dr, none, [closeRequest x]⟩ := by
  unfold deployRequestsService.Close Client.newRequest
  rw [h]
  all_goals rfl

theorem Close_runErr (c : Client) (x : CloseDeployRequestRequest) (e : GoError)
    (h : c.newRequestErr = some e) :
    deployRequestsService.Close c x =
      ⟨none, some (errorsWrap e "error creating http request"), []⟩ := by
  unfold deployRequestsService.Close Client.newRequest
  rw [h]
  all_goals rfl

theorem Deploy_runOk (c : Client) (x : PerformDeployRequest)
    (h : c.newRequestErr = none) :
    deployRequestsService.Deploy c x =
      match c.transport (deployRequestReq x) with
      | .error e => ⟨none, some e, [deployRequestReq x]⟩
      | .ok res =>
        match decodeDeployRequest res.body with
        | .error e => ⟨none, some e, [deployRequestReq x]⟩
        | .ok dr => ⟨some dr, none, [deployRequestReq x]⟩ := by
  unfold deployRequestsService.Deploy Client.newRequest
  rw [h]
  all_goals rfl

theorem Deploy_runErr (c : Client) (x : PerformDeployRequest) (e : GoError)
    (h : c.newRequestErr = some e) :
    deployRequestsService.Deploy c x =
      ⟨none, some (errorsWrap e "error creating http request"), []⟩ := by
  unfold deployRequestsService.Deploy Client.newRequest
  rw [h]
  all_goals rfl

theorem Create_runOk (c : Client) (x : CreateDeployRequestRequest)
    (h : c.newRequestErr = none) :
    deployRequestsService.Create c x =
      match c.transport (createRequest x) with
      | .error e => ⟨none, some e, [createRequest x]⟩
      | .ok res =>
        match decodeDeployRequest res.body with
        | .error e => ⟨none, some e, [createRequest x]⟩
        | .ok dr => ⟨some dr, none, [createRequest x]⟩ := by
  unfold deployRequestsService.Create Client.newRequest
  rw [h]
  all_goals rfl

theorem Create_runErr (c : Client) (x : CreateDeployRequestRequest) (e : GoError)
    (h : c.newRequestErr = some e) :
    deployRequestsService.Create c x = ⟨none, some e, []⟩ := by
  unfold deployRequestsService.Create Client.newRequest
  rw [h]
  all_goals rfl

theorem CancelDeploy_runOk (c : Client) (x : CancelDeployRequest)
    (h : c.newRequestErr = none) :
    deployRequestsService.CancelDeploy c x =
      match c.transport (cancelRequest x) with
      | .error e => ⟨none, some e, [cancelRequest x]⟩
      | .ok res =>
        match decodeDeployRequest res.body with
        | .error e => ⟨none, some e, [cancelRequest x]⟩
        | .ok dr => ⟨some dr, none, [cancelRequest x]⟩ := by
  unfold deployRequestsService.CancelDeploy Client.newRequest
  rw [h]
  all_goals rfl

theorem CancelDeploy_runErr (c : Client) (x : CancelDeployRequest) (e : GoError)
    (h : c.newRequestErr = some e) :
    deployRequestsService.CancelDeploy c x =
      ⟨none, some (errorsWrap e "error creating http request"), []⟩ := by
  unfold deployRequestsService.CancelDeploy Client.newRequest
  rw [h]
  all_goals rfl

theorem List_runOk (c : Client) (x : ListDeployRequestsRequest)
    (h : c.newRequestErr = none) :
    deployRequestsService.List c x =
      match c.transport (listRequest x) with
      | .error e => ⟨none, some e, [listRequest x]⟩
      | .ok res =>
        match decodeDeployRequestsResponse res.body with
        | .error e => ⟨none, some e, [listRequest x]⟩
        | .ok resp => ⟨resp.DeployRequests, none, [listRequest x]⟩ := by
  unfold deployRequestsService.List Client.newRequest
  rw [h]
  all_goals rfl

theorem List_runErr (c : Client) (x : ListDeployRequestsRequest) (e : GoError)
    (h : c.newRequestErr = some e) :
    deployRequestsService.List c x =
      ⟨none, some (errorsWrap e "error creating http request"), []⟩ := by
  unfold deployRequestsService.List Client.newRequest
  rw [h]
  all_goals rfl

theorem CreateReview_runOk (c : Client) (x : ReviewDeployRequestRequest)
    (h : c.newRequestErr = none) :
    deployRequestsService.CreateReview c x =
      match c.transport (reviewRequest x) with
      | .error e => ⟨none, some e, [reviewRequest x]⟩
      | .ok res =>
        match decodeDeployRequestReview res.body with
        | .error e => ⟨none, some e, [reviewRequest x]⟩
        | .ok drr => ⟨some drr, none, [reviewRequest x]⟩ := by
  unfold deployRequestsService.CreateReview Client.newRequest
  rw [h]
  all_goals rfl

theorem CreateReview_runErr (c : Client) (x : ReviewDeployRequestRequest)
    (e : GoError) (h : c.newRequestErr = some e) :
    deployRequestsService.CreateReview c x =
      ⟨none, some (errorsWrap e "error creating http request"), []⟩ := by
  unfold deployRequestsService.CreateReview Client.newRequest
  rw [h]
  all_goals rfl

theorem pwCreate_runOk (c : Client) (x : DatabaseBranchPasswordRequest)
    (h : c.newRequestErr = none) :
    passwordsService.Create c x =
      match c.transport (pwCreateRequest x) with
      | .error e => ⟨none, some e, [pwCreateRequest x]⟩
      | .ok res =>
        match decodeDatabaseBranchPassword res.body with
        | .error e => ⟨none, some e, [pwCreateRequest x]⟩
        | .ok pw => ⟨some pw, none, [pwCreateRequest x]⟩ := by
  unfold passwordsService.Create Client.newRequest
  rw [h]
  all_goals rfl

theorem pwCreate_runErr (c : Client) (x : DatabaseBranchPasswordRequest)
    (e : GoError) (h : c.newRequestErr = some e) :
    passwordsService.Create c x =
      ⟨none, some (errorsWrap e "error creating http request"), []⟩ := by
  unfold passwordsService.Create Client.newRequest
  rw [h]
  all_goals rfl

theorem pwList_runOk (c : Client) (x : ListDatabaseBranchPasswordRequest)
    (h : c.newRequestErr = none) :
    passwordsService.List c x =
      match c.transport (pwListRequest x) with
      | .error e => ⟨none, some e, [pwListRequest x]⟩
      | .ok res =>
        match decodePasswordsResponse res.body with
        | .error e => ⟨none, some e, [pwListRequest x]⟩
        | .ok resp => ⟨resp.Passwords, none, [pwListRequest x]⟩ := by
  unfold passwordsService.List Client.newRequest
  rw [h]
  all_goals rfl

theorem pwList_runErr (c : Client) (x : ListDatabaseBranchPasswordRequest)
    (e : GoError) (h : c.newRequestErr = some e) :
    passwordsService.List c x =
      ⟨none, some (errorsWrap e "error creating http request"), []⟩ := by
  unfold passwordsService.List Client.newRequest
  rw [h]
  all_goals rfl

theorem pwGet_runOk (c : Client) (x : GetDatabaseBranchPasswordRequest)
    (h : c.newRequestErr = none) :
    passwordsService.Get c x =
      match c.transport (pwGetRequest x) with
      | .error e => ⟨none, some e, [pwGetRequest x]⟩
      | .ok res =>
        match decodeDatabaseBranchPassword res.body with
        | .error e => ⟨none, some e, [pwGetRequest x]⟩
        | .ok pw => ⟨some pw, none, [pwGetRequest x]⟩ := by
  unfold passwordsService.Get Client.newRequest
  rw [h]
  all_goals rfl

theorem pwGet_runErr (c : Client) (x : GetDatabaseBranchPasswordRequest)
    (e : GoError) (h : c.newRequestErr = some e) :
    passwordsService.Get c x =
      ⟨none, some (errorsWrap e "error creating http request"), []⟩ := by
  unfold passwordsService.Get Client.newRequest
  rw [h]
  all_goals rfl

/-- C1: the action path is the single-resource path plus `/` plus the
verb, and the single-resource path is the collection path plus `/` plus
the decimal string of the number. -/
theorem c1_path_builders (o d : String) (n : Nat) (v : String) :
    deployRequestActionAPIPath o d n v = deployRequestAPIPath o d n ++ "/" ++ v ∧
    deployRequestAPIPath o d n = deployRequestsAPIPath o d ++ "/" ++ Nat.repr n := by
  refine ⟨rfl, ?_⟩
  unfold deployRequestAPIPath deployRequestsAPIPath
  have h : "/deploy-requests/" = "/deploy-requests" ++ "/" := rfl
  rw [string_append_assoc (databasesAPIPath o ++ "/" ++ d) "/deploy-requests/" (Nat.repr n),
    h, string_append_assoc "/deploy-requests" "/" (Nat.repr n),
    ← string_append_assoc (databasesAPIPath o ++ "/" ++ d) "/deploy-requests"
      ("/" ++ Nat.repr n),
    ← string_append_assoc (databasesAPIPath o ++ "/" ++ d ++ "/deploy-requests") "/"
      (Nat.repr n)]

/-- A concrete client whose transport always fails; used to instantiate
universally quantified theorems at a concrete input. -/
def witClient : Client :=
  ⟨none, fun _ => .error ⟨"boom"⟩⟩

/-- C2: every request `CreateReview` hands to the transport uses the
read-style verb HTTP GET, and its path is the `reviews` action endpoint
(the endpoint that creates a `DeployRequestReview`). -/
theorem c2_createreview_uses_get (c : Client)
    (reviewReq : ReviewDeployRequestRequest) (r : Request)
    (hr : r ∈ (deployRequestsService.CreateReview c reviewReq).trace) :
    r.method = .GET ∧
    r.path = deployRequestActionAPIPath reviewReq.Organization
      reviewReq.Database reviewReq.Number "reviews" := by
  have hrr : r = reviewRequest reviewReq := by
    cases hn : c.newRequestErr with
    | some e =>
      rw [CreateReview_runErr c reviewReq e hn] at hr
      simp at hr
    | none =>
      rw [CreateReview_runOk c reviewReq hn] at hr
      split at hr
      · simpa using hr
      · split at hr
        · simpa using hr
        · simpa using hr
  subst hrr
  exact ⟨rfl, rfl⟩

/-- Witness for C2 at a concrete client and review request. -/
theorem c2_createreview_uses_get_witness :
    (reviewRequest ⟨"o", "d", 5, "lgtm", "approved"⟩).method = .GET ∧
    (reviewRequest ⟨"o", "d", 5, "lgtm", "approved"⟩).path =
      deployRequestActionAPIPath "o" "d" 5 "reviews" :=
  c2_createreview_uses_get witClient ⟨"o", "d", 5, "lgtm", "approved"⟩
    (reviewRequest ⟨"o", "d", 5, "lgtm", "approved"⟩)
    (List.mem_singleton.mpr rfl)

theorem Get_shape (c : Client) (x : GetDeployRequestRequest) :
    (∃ e, c.newRequestErr = some e ∧
      deployRequestsService.Get c x = ⟨none, some (errorsWrap e "error creating http request"), []⟩) ∨
    (∃ e, c.newRequestErr = none ∧ c.transport (getRequest x) = .error e ∧
      deployRequestsService.Get c x = ⟨none, some e, [getRequest x]⟩) ∨
    (∃ res e, c.newRequestErr = none ∧ c.transport (getRequest x) = .ok res ∧
      decodeDeployRequest res.body = .error e ∧
      deployRequestsService.Get c x = ⟨none, some e, [getRequest x]⟩) ∨
    (∃ res dr, c.newRequestErr = none ∧ c.transport (getRequest x) = .ok res ∧
      decodeDeployRequest res.body = .ok dr ∧
      deployRequestsService.Get c x = ⟨some dr, none, [getRequest x]⟩) := by
  cases hn : c.newRequestErr with
  | some e => exact Or.inl ⟨e, rfl, Get_runErr c x e hn⟩
  | none =>
    cases ht : c.transport (getRequest x) with
    | error e =>
      refine Or.inr (Or.inl ⟨e, rfl, rfl, ?_⟩)
      rw [Get_runOk c x hn, ht]
    | ok res =>
      cases hd : decodeDeployRequest res.body with
      | error e =>
        refine Or.inr (Or.inr (Or.inl ⟨res, e, rfl, rfl, hd, ?_⟩))
        rw [Get_runOk c x hn, ht]
        simp [hd]
      | ok v =>
        refine Or.inr (Or.inr (Or.inr ⟨res, v, rfl, rfl, ?_, ?_⟩))
        · exact hd
        · rw [Get_runOk c x hn, ht]
          simp [hd]

theorem Close_shape (c : Client) (x : CloseDeployRequestRequest) :
    (∃ e, c.newRequestErr = some e ∧
      deployRequestsService.Close c x = ⟨none, some (errorsWrap e "error creating http request"), []⟩) ∨
    (∃ e, c.newRequestErr = none ∧ c.transport (closeRequest x) = .error e ∧
      deployRequestsService.Close c x = ⟨none, some e, [closeRequest x]⟩) ∨
    (∃ res e, c.newRequestErr = none ∧ c.transport (closeRequest x) = .ok res ∧
      decodeDeployRequest res.body = .error e ∧
      deployRequestsService.Close c x = ⟨none, some e, [closeRequest x]⟩) ∨
    (∃ res dr, c.newRequestErr = none ∧ c.transport (closeRequest x) = .ok res ∧
      decodeDeployRequest res.body = .ok dr ∧
      deployRequestsService.Close c x = ⟨some dr, none, [closeRequest x]⟩) := by
  cases hn : c.newRequestErr with
  | some e => exact Or.inl ⟨e, rfl, Close_runErr c x e hn⟩
  | none =>
    cases ht : c.transport (closeRequest x) with
    | error e =>
      refine Or.inr (Or.inl ⟨e, rfl, rfl, ?_⟩)
      rw [Close_runOk c x hn, ht]
    | ok res =>
      cases hd : decodeDeployRequest res.body with
      | error e =>
        refine Or.inr (Or.inr (Or.inl ⟨res, e, rfl, rfl, hd, ?_⟩))
        rw [Close_runOk c x hn, ht]
        simp [hd]
      | ok v =>
        refine Or.inr (Or.inr (Or.inr ⟨res, v, rfl, rfl, ?_, ?_⟩))
        · exact hd
        · rw [Close_runOk c x hn, ht]
          simp [hd]

theorem Deploy_shape (c : Client) (x : PerformDeployRequest) :
    (∃ e, c.newRequestErr = some e ∧
      deployRequestsService.Deploy c x = ⟨none, some (errorsWrap e "error creating http request"), []⟩) ∨
    (∃ e, c.newRequestErr = none ∧ c.transport (deployRequestReq x) = .error e ∧
      deployRequestsService.Deploy c x = ⟨none, some e, [deployRequestReq x]⟩) ∨
    (∃ res e, c.newRequestErr = none ∧ c.transport (deployRequestReq x) = .ok res ∧
      decodeDeployRequest res.body = .error e ∧
      deployRequestsService.Deploy c x = ⟨none, some e, [deployRequestReq x]⟩) ∨
    (∃ res dr, c.newRequestErr = none ∧ c.transport (deployRequestReq x) = .ok res ∧
      decodeDeployRequest res.body = .ok dr ∧
      deployRequestsService.Deploy c x = ⟨some dr, none, [deployRequestReq x]⟩) := by
  cases hn : c.newRequestErr with
  | some e => exact Or.inl ⟨e, rfl, Deploy_runErr c x e hn⟩
  | none =>
    cases ht : c.transport (deployRequestReq x) with
    | error e =>
      refine Or.inr (Or.inl ⟨e, rfl, rfl, ?_⟩)
      rw [Deploy_runOk c x hn, ht]
    | ok res =>
      cases hd : decodeDeployRequest res.body with
      | error e =>
        refine Or.inr (Or.inr (Or.inl ⟨res, e, rfl, rfl, hd, ?_⟩))
        rw [Deploy_runOk c x hn, ht]
        simp [hd]
      | ok v =>
        refine Or.inr (Or.inr (Or.inr ⟨res, v, rfl, rfl, ?_, ?_⟩))
        · exact hd
        · rw [Deploy_runOk c x hn, ht]
          simp [hd]

theorem Create_shape (c : Client) (x : CreateDeployRequestRequest) :
    (∃ e, c.newRequestErr = some e ∧
      deployRequestsService.Create c x = ⟨none, some e, []⟩) ∨
    (∃ e, c.newRequestErr = none ∧ c.transport (createRequest x) = .error e ∧
      deployRequestsService.Create c x = ⟨none, some e, [createRequest x]⟩) ∨
    (∃ res e, c.newRequestErr = none ∧ c.transport (createRequest x) = .ok res ∧
      decodeDeployRequest res.body = .error e ∧
      deployRequestsService.Create c x = ⟨none, some e, [createRequest x]⟩) ∨
    (∃ res dr, c.newRequestErr = none ∧ c.transport (createRequest x) = .ok res ∧
      decodeDeployRequest res.body = .ok dr ∧
      deployRequestsService.Create c x = ⟨some dr, none, [createRequest x]⟩) := by
  cases hn : c.newRequestErr with
  | some e => exact Or.inl ⟨e, rfl, Create_runErr c x e hn⟩
  | none =>
    cases ht : c.transport (createRequest x) with
    | error e =>
      refine Or.inr (Or.inl ⟨e, rfl, rfl, ?_⟩)
      rw [Create_runOk c x hn, ht]
    | ok res =>
      cases hd : decodeDeployRequest res.body with
      | error e =>
        refine Or.inr (Or.inr (Or.inl ⟨res, e, rfl, rfl, hd, ?_⟩))
        rw [Create_runOk c x hn, ht]
        simp [hd]
      | ok v =>
        refine Or.inr (Or.inr (Or.inr ⟨res, v, rfl, rfl, ?_, ?_⟩))
        · exact hd
        · rw [Create_runOk c x hn, ht]
          simp [hd]

theorem CancelDeploy_shape (c : Client) (x : CancelDeployRequest) :
    (∃ e, c.newRequestErr = some e ∧
      deployRequestsService.CancelDeploy c x = ⟨none, some (errorsWrap e "error creating http request"), []⟩) ∨
    (∃ e, c.newRequestErr = none ∧ c.transport (cancelRequest x) = .error e ∧
      deployRequestsService.CancelDeploy c x = ⟨none, some e, [cancelRequest x]⟩) ∨
    (∃ res e, c.newRequestErr = none ∧ c.transport (cancelRequest x) = .ok res ∧
      decodeDeployRequest res.body = .error e ∧
      deployRequestsService.CancelDeploy c x = ⟨none, some e, [cancelRequest x]⟩) ∨
    (∃ res dr, c.newRequestErr = none ∧ c.transport (cancelRequest x) = .ok res ∧
      decodeDeployRequest res.body = .ok dr ∧
      deployRequestsService.CancelDeploy c x = ⟨some dr, none, [cancelRequest x]⟩) := by
  cases hn : c.newRequestErr with
  | some e => exact Or.inl ⟨e, rfl, CancelDeploy_runErr c x e hn⟩
  | none =>
    cases ht : c.transport (cancelRequest x) with
    | error e =>
      refine Or.inr (Or.inl ⟨e, rfl, rfl, ?_⟩)
      rw [CancelDeploy_runOk c x hn, ht]
    | ok res =>
      cases hd : decodeDeployRequest res.body with
      | error e =>
        refine Or.inr (Or.inr (Or.inl ⟨res, e, rfl, rfl, hd, ?_⟩))
        rw [CancelDeploy_runOk c x hn, ht]
        simp [hd]
      | ok v =>
        refine Or.inr (Or.inr (Or.inr ⟨res, v, rfl, rfl, ?_, ?_⟩))
        · exact hd
        · rw [CancelDeploy_runOk c x hn, ht]
          simp [hd]

theorem List_shape (c : Client) (x : ListDeployRequestsRequest) :
    (∃ e, c.newRequestErr = some e ∧
      deployRequestsService.List c x = ⟨none, some (errorsWrap e "error creating http request"), []⟩) ∨
    (∃ e, c.newRequestErr = none ∧ c.transport (listRequest x) = .error e ∧
      deployRequestsService.List c x = ⟨none, some e, [listRequest x]⟩) ∨
    (∃ res e, c.newRequestErr = none ∧ c.transport (listRequest x) = .ok res ∧
      decodeDeployRequestsResponse res.body = .error e ∧
      deployRequestsService.List c x = ⟨none, some e, [listRequest x]⟩) ∨
    (∃ res resp, c.newRequestErr = none ∧ c.transport (listRequest x) = .ok res ∧
      decodeDeployRequestsResponse res.body = .ok resp ∧
      deployRequestsService.List c x = ⟨resp.DeployRequests, none, [listRequest x]⟩) := by
  cases hn : c.newRequestErr with
  | some e => exact Or.inl ⟨e, rfl, List_runErr c x e hn⟩
  | none =>
    cases ht : c.transport (listRequest x) with
    | error e =>
      refine Or.inr (Or.inl ⟨e, rfl, rfl, ?_⟩)
      rw [List_runOk c x hn, ht]
    | ok res =>
      cases hd : decodeDeployRequestsResponse res.body with
      | error e =>
        refine Or.inr (Or.inr (Or.inl ⟨res, e, rfl, rfl, hd, ?_⟩))
        rw [List_runOk c x hn, ht]
        simp [hd]
      | ok v =>
        refine Or.inr (Or.inr (Or.inr ⟨res, v, rfl, rfl, ?_, ?_⟩))
        · exact hd
        · rw [List_runOk c x hn, ht]
          simp [hd]

theorem CreateReview_shape (c : Client) (x : ReviewDeployRequestRequest) :
    (∃ e, c.newRequestErr = some e ∧
      deployRequestsService.CreateReview c x = ⟨none, some (errorsWrap e "error creating http request"), []⟩) ∨
    (∃ e, c.newRequestErr = none ∧ c.transport (reviewRequest x) = .error e ∧
      deployRequestsService.CreateReview c x = ⟨none, some e, [reviewRequest x]⟩) ∨
    (∃ res e, c.newRequestErr = none ∧ c.transport (reviewRequest x) = .ok res ∧
      decodeDeployRequestReview res.body = .error e ∧
      deployRequestsService.CreateReview c x = ⟨none, some e, [reviewRequest x]⟩) ∨
    (∃ res drr, c.newRequestErr = none ∧ c.transport (reviewRequest x) = .ok res ∧
      decodeDeployRequestReview res.body = .ok drr ∧
      deployRequestsService.CreateReview c x = ⟨some drr, none, [reviewRequest x]⟩) := by
  cases hn : c.newRequestErr with
  | some e => exact Or.inl ⟨e, rfl, CreateReview_runErr c x e hn⟩
  | none =>
    cases ht : c.transport (reviewRequest x) with
    | error e =>
      refine Or.inr (Or.inl ⟨e, rfl, rfl, ?_⟩)
      rw [CreateReview_runOk c x hn, ht]
    | ok res =>
      cases hd : decodeDeployRequestReview res.body with
      | error e =>
        refine Or.inr (Or.inr (Or.inl ⟨res, e, rfl, rfl, hd, ?_⟩))
        rw [CreateReview_runOk c x hn, ht]
        simp [hd]
      | ok v =>
        refine Or.inr (Or.inr (Or.inr ⟨res, v, rfl, rfl, ?_, ?_⟩))
        · exact hd
        · rw [CreateReview_runOk c x hn, ht]
          simp [hd]

theorem pwCreate_shape (c : Client) (x : DatabaseBranchPasswordRequest) :
    (∃ e, c.newRequestErr = some e ∧
      passwordsService.Create c x = ⟨none, some (errorsWrap e "error creating http request"), []⟩) ∨
    (∃ e, c.newRequestErr = none ∧ c.transport (pwCreateRequest x) = .error e ∧
      passwordsService.Create c x = ⟨none, some e, [pwCreateRequest x]⟩) ∨
    (∃ res e, c.newRequestErr = none ∧ c.transport (pwCreateRequest x) = .ok res ∧
      decodeDatabaseBranchPassword res.body = .error e ∧
      passwordsService.Create c x = ⟨none, some e, [pwCreateRequest x]⟩) ∨
    (∃ res pw, c.newRequestErr = none ∧ c.transport (pwCreateRequest x) = .ok res ∧
      decodeDatabaseBranchPassword res.body = .ok pw ∧
      passwordsService.Create c x = ⟨some pw, none, [pwCreateRequest x]⟩) := by
  cases hn : c.newRequestErr with
  | some e => exact Or.inl ⟨e, rfl, pwCreate_runErr c x e hn⟩
  | none =>
    cases ht : c.transport (pwCreateRequest x) with
    | error e =>
      refine Or.inr (Or.inl ⟨e, rfl, rfl, ?_⟩)
      rw [pwCreate_runOk c x hn, ht]
    | ok res =>
      cases hd : decodeDatabaseBranchPassword res.body with
      | error e =>
        refine Or.inr (Or.inr (Or.inl ⟨res, e, rfl, rfl, hd, ?_⟩))
        rw [pwCreate_runOk c x hn, ht]
        simp [hd]
      | ok v =>
        refine Or.inr (Or.inr (Or.inr ⟨res, v, rfl, rfl, ?_, ?_⟩))
        · exact hd
        · rw [pwCreate_runOk c x hn, ht]
          simp [hd]

theorem pwList_shape (c : Client) (x : ListDatabaseBranchPasswordRequest) :
    (∃ e, c.newRequestErr = some e ∧
      passwordsService.List c x = ⟨none, some (errorsWrap e "error creating http request"), []⟩) ∨
    (∃ e, c.newRequestErr = none ∧ c.transport (pwListRequest x) = .error e ∧
      passwordsService.List c x = ⟨none, some e, [pwListRequest x]⟩) ∨
    (∃ res e, c.newRequestErr = none ∧ c.transport (pwListRequest x) = .ok res ∧
      decodePasswordsResponse res.body = .error e ∧
      passwordsService.List c x = ⟨none, some e, [pwListRequest x]⟩) ∨
    (∃ res resp, c.newRequestErr = none ∧ c.transport (pwListRequest x) = .ok res ∧
      decodePasswordsResponse res.body = .ok resp ∧
      passwordsService.List c x = ⟨resp.Passwords, none, [pwListRequest x]⟩) := by
  cases hn : c.newRequestErr with
  | some e => exact Or.inl ⟨e, rfl, pwList_runErr c x e hn⟩
  | none =>
    cases ht : c.transport (pwListRequest x) with
    | error e =>
      refine Or.inr (Or.inl ⟨e, rfl, rfl, ?_⟩)
      rw [pwList_runOk c x hn, ht]
    | ok res =>
      cases hd : decodePasswordsResponse res.body with
      | error e =>
        refine Or.inr (Or.inr (Or.inl ⟨res, e, rfl, rfl, hd, ?_⟩))
        rw [pwList_runOk c x hn, ht]
        simp [hd]
      | ok v =>
        refine Or.inr (Or.inr (Or.inr ⟨res, v, rfl, rfl, ?_, ?_⟩))
        · exact hd
        · rw [pwList_runOk c x hn, ht]
          simp [hd]

theorem pwGet_shape (c : Client) (x : GetDatabaseBranchPasswordRequest) :
    (∃ e, c.newRequestErr = some e ∧
      passwordsService.Get c x = ⟨none, some (errorsWrap e "error creating http request"), []⟩) ∨
    (∃ e, c.newRequestErr = none ∧ c.transport (pwGetRequest x) = .error e ∧
      passwordsService.Get c x = ⟨none, some e, [pwGetRequest x]⟩) ∨
    (∃ res e, c.newRequestErr = none ∧ c.transport (pwGetRequest x) = .ok res ∧
      decodeDatabaseBranchPassword res.body = .error e ∧
      passwordsService.Get c x = ⟨none, some e, [pwGetRequest x]⟩) ∨
    (∃ res pw, c.newRequestErr = none ∧ c.transport (pwGetRequest x) = .ok res ∧
      decodeDatabaseBranchPassword res.body = .ok pw ∧
      passwordsService.Get c x = ⟨some pw, none, [pwGetRequest x]⟩) := by
  cases hn : c.newRequestErr with
  | some e => exact Or.inl ⟨e, rfl, pwGet_runErr c x e hn⟩
  | none =>
    cases ht : c.transport (pwGetRequest x) with
    | error e =>
      refine Or.inr (Or.inl ⟨e, rfl, rfl, ?_⟩)
      rw [pwGet_runOk c x hn, ht]
    | ok res =>
      cases hd : decodeDatabaseBranchPassword res.body with
      | error e =>
        refine Or.inr (Or.inr (Or.inl ⟨res, e, rfl, rfl, hd, ?_⟩))
        rw [pwGet_runOk c x hn, ht]
        simp [hd]
      | ok v =>
        refine Or.inr (Or.inr (Or.inr ⟨res, v, rfl, rfl, ?_, ?_⟩))
        · exact hd
        · rw [pwGet_runOk c x hn, ht]
          simp [hd]

/-- Exactly one of a Go `(result, error)` pair is non-nil. -/
def exactlyOne {α : Type} (v : Option α) (e : Option GoError) : Prop :=
  (v.isSome ∧ e = none) ∨ (v = none ∧ e.isSome)

/-- A concrete client whose transport always succeeds with the given
response body. -/
def okClient (j : Json) : Client :=
  ⟨none, fun _ => .ok ⟨j⟩⟩

theorem Get_memTrace (c : Client) (x : GetDeployRequestRequest) (r : Request)
    (hr : r ∈ (deployRequestsService.Get c x).trace) : r = getRequest x := by
  rcases Get_shape c x with ⟨e, hn, hop⟩ | ⟨e, hn, ht, hop⟩ |
      ⟨res, e, hn, ht, hd, hop⟩ | ⟨res, v, hn, ht, hd, hop⟩ <;>
    rw [hop] at hr <;> simp at hr <;> exact hr

theorem Get_traceLen (c : Client) (x : GetDeployRequestRequest) :
    (deployRequestsService.Get c x).trace.length ≤ 1 ∧
    (c.newRequestErr = none → (deployRequestsService.Get c x).trace.length = 1) := by
  rcases Get_shape c x with ⟨e, hn, hop⟩ | ⟨e, hn, ht, hop⟩ |
      ⟨res, e, hn, ht, hd, hop⟩ | ⟨res, v, hn, ht, hd, hop⟩ <;> rw [hop]
  · refine ⟨by simp, ?_⟩
    intro h
    rw [h] at hn
    cases hn
  all_goals exact ⟨by simp, fun _ => by simp⟩

theorem Close_memTrace (c : Client) (x : CloseDeployRequestRequest) (r : Request)
    (hr : r ∈ (deployRequestsService.Close c x).trace) : r = closeRequest x := by
  rcases Close_shape c x with ⟨e, hn, hop⟩ | ⟨e, hn, ht, hop⟩ |
      ⟨res, e, hn, ht, hd, hop⟩ | ⟨res, v, hn, ht, hd, hop⟩ <;>
    rw [hop] at hr <;> simp at hr <;> exact hr

theorem Close_traceLen (c : Client) (x : CloseDeployRequestRequest) :
    (deployRequestsService.Close c x).trace.length ≤ 1 ∧
    (c.newRequestErr = none → (deployRequestsService.Close c x).trace.length = 1) := by
  rcases Close_shape c x with ⟨e, hn, hop⟩ | ⟨e, hn, ht, hop⟩ |
      ⟨res, e, hn, ht, hd, hop⟩ | ⟨res, v, hn, ht, hd, hop⟩ <;> rw [hop]
  · refine ⟨by simp, ?_⟩
    intro h
    rw [h] at hn
    cases hn
  all_goals exact ⟨by simp, fun _ => by simp⟩

theorem Deploy_memTrace (c : Client) (x : PerformDeployRequest) (r : Request)
    (hr : r ∈ (deployRequestsService.Deploy c x).trace) : r = deployRequestReq x := by
  rcases Deploy_shape c x with ⟨e, hn, hop⟩ | ⟨e, hn, ht, hop⟩ |
      ⟨res, e, hn, ht, hd, hop⟩ | ⟨res, v, hn, ht, hd, hop⟩ <;>
    rw [hop] at hr <;> simp at hr <;> exact hr

theorem Deploy_traceLen (c : Client) (x : PerformDeployRequest) :
    (deployRequestsService.Deploy c x).trace.length ≤ 1 ∧
    (c.newRequestErr = none → (deployRequestsService.Deploy c x).trace.length = 1) := by
  rcases Deploy_shape c x with ⟨e, hn, hop⟩ | ⟨e, hn, ht, hop⟩ |
      ⟨res, e, hn, ht, hd, hop⟩ | ⟨res, v, hn, ht, hd, hop⟩ <;> rw [hop]
  · refine ⟨by simp, ?_⟩
    intro h
    rw [h] at hn
    cases hn
  all_goals exact ⟨by simp, fun _ => by simp⟩

theorem Create_memTrace (c : Client) (x : CreateDeployRequestRequest) (r : Request)
    (hr : r ∈ (deployRequestsService.Create c x).trace) : r = createRequest x := by
  rcases Create_shape c x with ⟨e, hn, hop⟩ | ⟨e, hn, ht, hop⟩ |
      ⟨res, e, hn, ht, hd, hop⟩ | ⟨res, v, hn, ht, hd, hop⟩ <;>
    rw [hop] at hr <;> simp at hr <;> exact hr

theorem Create_traceLen (c : Client) (x : CreateDeployRequestRequest) :
    (deployRequestsService.Create c x).trace.length ≤ 1 ∧
    (c.newRequestErr = none → (deployRequestsService.Create c x).trace.length = 1) := by
  rcases Create_shape c x with ⟨e, hn, hop⟩ | ⟨e, hn, ht, hop⟩ |
      ⟨res, e, hn, ht, hd, hop⟩ | ⟨res, v, hn, ht, hd, hop⟩ <;> rw [hop]
  · refine ⟨by simp, ?_⟩
    intro h
    rw [h] at hn
    cases hn
  all_goals exact ⟨by simp, fun _ => by simp⟩

theorem CancelDeploy_memTrace (c : Client) (x : CancelDeployRequest) (r : Request)
    (hr : r ∈ (deployRequestsService.CancelDeploy c x).trace) : r = cancelRequest x := by
  rcases CancelDeploy_shape c x with ⟨e, hn, hop⟩ | ⟨e, hn, ht, hop⟩ |
      ⟨res, e, hn, ht, hd, hop⟩ | ⟨res, v, hn, ht, hd, hop⟩ <;>
    rw [hop] at hr <;> simp at hr <;> exact hr

theorem CancelDeploy_traceLen (c : Client) (x : CancelDeployRequest) :
    (deployRequestsService.CancelDeploy c x).trace.length ≤ 1 ∧
    (c.newRequestErr = none → (deployRequestsService.CancelDeploy c x).trace.length = 1) := by
  rcases CancelDeploy_shape c x with ⟨e, hn, hop⟩ | ⟨e, hn, ht, hop⟩ |
      ⟨res, e, hn, ht, hd, hop⟩ | ⟨res, v, hn, ht, hd, hop⟩ <;> rw [hop]
  · refine ⟨by simp, ?_⟩
    intro h
    rw [h] at hn
    cases hn
  all_goals exact ⟨by simp, fun _ => by simp⟩

theorem List_memTrace (c : Client) (x : ListDeployRequestsRequest) (r : Request)
    (hr : r ∈ (deployRequestsService.List c x).trace) : r = listRequest x := by
  rcases List_shape c x with ⟨e, hn, hop⟩ | ⟨e, hn, ht, hop⟩ |
      ⟨res, e, hn, ht, hd, hop⟩ | ⟨res, v, hn, ht, hd, hop⟩ <;>
    rw [hop] at hr <;> simp at hr <;> exact hr

theorem List_traceLen (c : Client) (x : ListDeployRequestsRequest) :
    (deployRequestsService.List c x).trace.length ≤ 1 ∧
    (c.newRequestErr = none → (deployRequestsService.List c x).trace.length = 1) := by
  rcases List_shape c x with ⟨e, hn, hop⟩ | ⟨e, hn, ht, hop⟩ |
      ⟨res, e, hn, ht, hd, hop⟩ | ⟨res, v, hn, ht, hd, hop⟩ <;> rw [hop]
  · refine ⟨by simp, ?_⟩
    intro h
    rw [h] at hn
    cases hn
  all_goals exact ⟨by simp, fun _ => by simp⟩

theorem CreateReview_memTrace (c : Client) (x : ReviewDeployRequestRequest) (r : Request)
    (hr : r ∈ (deployRequestsService.CreateReview c x).trace) : r = reviewRequest x := by
  rcases CreateReview_shape c x with ⟨e, hn, hop⟩ | ⟨e, hn, ht, hop⟩ |
      ⟨res, e, hn, ht, hd, hop⟩ | ⟨res, v, hn, ht, hd, hop⟩ <;>
    rw [hop] at hr <;> simp at hr <;> exact hr

theorem CreateReview_traceLen (c : Client) (x : ReviewDeployRequestRequest) :
    (deployRequestsService.CreateReview c x).trace.length ≤ 1 ∧
    (c.newRequestErr = none → (deployRequestsService.CreateReview c x).trace.length = 1) := by
  rcases CreateReview_shape c x with ⟨e, hn, hop⟩ | ⟨e, hn, ht, hop⟩ |
      ⟨res, e, hn, ht, hd, hop⟩ | ⟨res, v, hn, ht, hd, hop⟩ <;> rw [hop]
  · refine ⟨by simp, ?_⟩
    intro h
    rw [h] at hn
    cases hn
  all_goals exact ⟨by simp, fun _ => by simp⟩

theorem pwCreate_memTrace (c : Client) (x : DatabaseBranchPasswordRequest) (r : Request)
    (hr : r ∈ (passwordsService.Create c x).trace) : r = pwCreateRequest x := by
  rcases pwCreate_shape c x with ⟨e, hn, hop⟩ | ⟨e, hn, ht, hop⟩ |
      ⟨res, e, hn, ht, hd, hop⟩ | ⟨res, v, hn, ht, hd, hop⟩ <;>
    rw [hop] at hr <;> simp at hr <;> exact hr

theorem pwCreate_traceLen (c : Client) (x : DatabaseBranchPasswordRequest) :
    (passwordsService.Create c x).trace.length ≤ 1 ∧
    (c.newRequestErr = none → (passwordsService.Create c x).trace.length = 1) := by
  rcases pwCreate_shape c x with ⟨e, hn, hop⟩ | ⟨e, hn, ht, hop⟩ |
      ⟨res, e, hn, ht, hd, hop⟩ | ⟨res, v, hn, ht, hd, hop⟩ <;> rw [hop]
  · refine ⟨by simp, ?_⟩
    intro h
    rw [h] at hn
    cases hn
  all_goals exact ⟨by simp, fun _ => by simp⟩

theorem pwList_memTrace (c : Client) (x : ListDatabaseBranchPasswordRequest) (r : Request)
    (hr : r ∈ (passwordsService.List c x).trace) : r = pwListRequest x := by
  rcases pwList_shape c x with ⟨e, hn, hop⟩ | ⟨e, hn, ht, hop⟩ |
      ⟨res, e, hn, ht, hd, hop⟩ | ⟨res, v, hn, ht, hd, hop⟩ <;>
    rw [hop] at hr <;> simp at hr <;> exact hr

theorem pwList_traceLen (c : Client) (x : ListDatabaseBranchPasswordRequest) :
    (passwordsService.List c x).trace.length ≤ 1 ∧
    (c.newRequestErr = none → (passwordsService.List c x).trace.length = 1) := by
  rcases pwList_shape c x with ⟨e, hn, hop⟩ | ⟨e, hn, ht, hop⟩ |
      ⟨res, e, hn, ht, hd, hop⟩ | ⟨res, v, hn, ht, hd, hop⟩ <;> rw [hop]
  · refine ⟨by simp, ?_⟩
    intro h
    rw [h] at hn
    cases hn
  all_goals exact ⟨by simp, fun _ => by simp⟩

theorem pwGet_memTrace (c : Client) (x : GetDatabaseBranchPasswordRequest) (r : Request)
    (hr : r ∈ (passwordsService.Get c x).trace) : r = pwGetRequest x := by
  rcases pwGet_shape c x with ⟨e, hn, hop⟩ | ⟨e, hn, ht, hop⟩ |
      ⟨res, e, hn, ht, hd, hop⟩ | ⟨res, v, hn, ht, hd, hop⟩ <;>
    rw [hop] at hr <;> simp at hr <;> exact hr

theorem pwGet_traceLen (c : Client) (x : GetDatabaseBranchPasswordRequest) :
    (passwordsService.Get c x).trace.length ≤ 1 ∧
    (c.newRequestErr = none → (passwordsService.Get c x).trace.length = 1) := by
  rcases pwGet_shape c x with ⟨e, hn, hop⟩ | ⟨e, hn, ht, hop⟩ |
      ⟨res, e, hn, ht, hd, hop⟩ | ⟨res, v, hn, ht, hd, hop⟩ <;> rw [hop]
  · refine ⟨by simp, ?_⟩
    intro h
    rw [h] at hn
    cases hn
  all_goals exact ⟨by simp, fun _ => by simp⟩

theorem Get_exactlyOne (c : Client) (x : GetDeployRequestRequest) :
    exactlyOne (deployRequestsService.Get c x).value (deployRequestsService.Get c x).error := by
  rcases Get_shape c x with ⟨e, hn, hop⟩ | ⟨e, hn, ht, hop⟩ |
      ⟨res, e, hn, ht, hd, hop⟩ | ⟨res, v, hn, ht, hd, hop⟩ <;> rw [hop]
  · exact Or.inr ⟨rfl, rfl⟩
  · exact Or.inr ⟨rfl, rfl⟩
  · exact Or.inr ⟨rfl, rfl⟩
  · exact Or.inl ⟨rfl, rfl⟩

theorem Close_exactlyOne (c : Client) (x : CloseDeployRequestRequest) :
    exactlyOne (deployRequestsService.Close c x).value (deployRequestsService.Close c x).error := by
  rcases Close_shape c x with ⟨e, hn, hop⟩ | ⟨e, hn, ht, hop⟩ |
      ⟨res, e, hn, ht, hd, hop⟩ | ⟨res, v, hn, ht, hd, hop⟩ <;> rw [hop]
  · exact Or.inr ⟨rfl, rfl⟩
  · exact Or.inr ⟨rfl, rfl⟩
  · exact Or.inr ⟨rfl, rfl⟩
  · exact Or.inl ⟨rfl, rfl⟩

theorem Deploy_exactlyOne (c : Client) (x : PerformDeployRequest) :
    exactlyOne (deployRequestsService.Deploy c x).value (deployRequestsService.Deploy c x).error := by
  rcases Deploy_shape c x with ⟨e, hn, hop⟩ | ⟨e, hn, ht, hop⟩ |
      ⟨res, e, hn, ht, hd, hop⟩ | ⟨res, v, hn, ht, hd, hop⟩ <;> rw [hop]
  · exact Or.inr ⟨rfl, rfl⟩
  · exact Or.inr ⟨rfl, rfl⟩
  · exact Or.inr ⟨rfl, rfl⟩
  · exact Or.inl ⟨rfl, rfl⟩

theorem Create_exactlyOne (c : Client) (x : CreateDeployRequestRequest) :
    exactlyOne (deployRequestsService.Create c x).value (deployRequestsService.Create c x).error := by
  rcases Create_shape c x with ⟨e, hn, hop⟩ | ⟨e, hn, ht, hop⟩ |
      ⟨res, e, hn, ht, hd, hop⟩ | ⟨res, v, hn, ht, hd, hop⟩ <;> rw [hop]
  · exact Or.inr ⟨rfl, rfl⟩
  · exact Or.inr ⟨rfl, rfl⟩
  · exact Or.inr ⟨rfl, rfl⟩
  · exact Or.inl ⟨rfl, rfl⟩

theorem CancelDeploy_exactlyOne (c : Client) (x : CancelDeployRequest) :
    exactlyOne (deployRequestsService.CancelDeploy c x).value (deployRequestsService.CancelDeploy c x).error := by
  rcases CancelDeploy_shape c x with ⟨e, hn, hop⟩ | ⟨e, hn, ht, hop⟩ |
      ⟨res, e, hn, ht, hd, hop⟩ | ⟨res, v, hn, ht, hd, hop⟩ <;> rw [hop]
  · exact Or.inr ⟨rfl, rfl⟩
  · exact Or.inr ⟨rfl, rfl⟩
  · exact Or.inr ⟨rfl, rfl⟩
  · exact Or.inl ⟨rfl, rfl⟩

theorem CreateReview_exactlyOne (c : Client) (x : ReviewDeployRequestRequest) :
    exactlyOne (deployRequestsService.CreateReview c x).value (deployRequestsService.CreateReview c x).error := by
  rcases CreateReview_shape c x with ⟨e, hn, hop⟩ | ⟨e, hn, ht, hop⟩ |
      ⟨res, e, hn, ht, hd, hop⟩ | ⟨res, v, hn, ht, hd, hop⟩ <;> rw [hop]
  · exact Or.inr ⟨rfl, rfl⟩
  · exact Or.inr ⟨rfl, rfl⟩
  · exact Or.inr ⟨rfl, rfl⟩
  · exact Or.inl ⟨rfl, rfl⟩

/-- C4: `Close` sends at most one request — exactly one when request
construction succeeds — it is a PATCH of the single-resource path with
the fixed body `{"state":"closed"}`, and on success the returned value is
the server's decoded `DeployRequest`. -/
theorem c4_close_patch_fixed_body (c : Client)
    (closeReq : CloseDeployRequestRequest) :
    (∀ r ∈ (deployRequestsService.Close c closeReq).trace,
      r.method = .PATCH ∧
      r.path = deployRequestAPIPath closeReq.Organization closeReq.Database
        closeReq.Number ∧
      r.body = some (Json.obj [("state", Json.str "closed")])) ∧
    (deployRequestsService.Close c closeReq).trace.length ≤ 1 ∧
    (c.newRequestErr = none →
      (deployRequestsService.Close c closeReq).trace.length = 1) ∧
    (∀ dr, (deployRequestsService.Close c closeReq).value = some dr →
      ∃ res, c.transport (closeRequest closeReq) = .ok res ∧
        decodeDeployRequest res.body = .ok dr ∧
        (deployRequestsService.Close c closeReq).error = none) := by
  refine ⟨?_, (Close_traceLen c closeReq).1, (Close_traceLen c closeReq).2, ?_⟩
  · intro r hr
    rw [Close_memTrace c closeReq r hr]
    exact ⟨rfl, rfl, rfl⟩
  · intro dr hdr
    rcases Close_shape c closeReq with ⟨e, hn, hop⟩ | ⟨e, hn, ht, hop⟩ |
        ⟨res, e, hn, ht, hd, hop⟩ | ⟨res, dr', hn, ht, hd, hop⟩ <;>
      rw [hop] at hdr ⊢ <;> simp at hdr
    rw [hdr] at hd
    exact ⟨res, ht, hd, rfl⟩

/-- Witness for C4 at a concrete client returning `{}`, which decodes to
the zero `DeployRequest`. -/
theorem c4_close_patch_fixed_body_witness :
    ((closeRequest ⟨"o", "d", 7⟩).method = .PATCH ∧
      (closeRequest ⟨"o", "d", 7⟩).path = deployRequestAPIPath "o" "d" 7 ∧
      (closeRequest ⟨"o", "d", 7⟩).body =
        some (Json.obj [("state", Json.str "closed")])) ∧
    (deployRequestsService.Close (okClient (Json.obj [])) ⟨"o", "d", 7⟩).trace.length = 1 ∧
    ∃ res, (okClient (Json.obj [])).transport (closeRequest ⟨"o", "d", 7⟩) = .ok res ∧
      decodeDeployRequest res.body = .ok zeroDeployRequest ∧
      (deployRequestsService.Close (okClient (Json.obj [])) ⟨"o", "d", 7⟩).error = none :=
  ⟨(c4_close_patch_fixed_body (okClient (Json.obj [])) ⟨"o", "d", 7⟩).1
      (closeRequest ⟨"o", "d", 7⟩) (List.mem_singleton.mpr rfl),
    (c4_close_patch_fixed_body (okClient (Json.obj [])) ⟨"o", "d", 7⟩).2.2.1 rfl,
    (c4_close_patch_fixed_body (okClient (Json.obj [])) ⟨"o", "d", 7⟩).2.2.2
      zeroDeployRequest rfl⟩

/-- C8: fields tagged `json:"-"` never appear in a serialized request
body: `Get` and `List` send no body at all; `Create`'s body holds exactly
`branch`, `into_branch`, `notes`; `Close`'s exactly `state`;
`CreateReview`'s exactly `body`, `state`; `Deploy`'s and `CancelDeploy`'s
the empty object — never `Organization`, `Database` or `Number`. -/
theorem c8_body_excludes_path_params (c : Client)
    (getReq : GetDeployRequestRequest) (listReq : ListDeployRequestsRequest)
    (createReq : CreateDeployRequestRequest)
    (closeReq : CloseDeployRequestRequest) (deployReq : PerformDeployRequest)
    (cancelReq : CancelDeployRequest) (reviewReq : ReviewDeployRequestRequest) :
    (∀ r ∈ (deployRequestsService.Get c getReq).trace, r.body = none) ∧
    (∀ r ∈ (deployRequestsService.List c listReq).trace, r.body = none) ∧
    (∀ r ∈ (deployRequestsService.Create c createReq).trace,
      r.body = some (Json.obj [("branch", Json.str createReq.Branch),
        ("into_branch", Json.str createReq.IntoBranch),
        ("notes", Json.str createReq.Notes)]) ∧
      ∀ b, r.body = some b → b.objKeys = ["branch", "into_branch", "notes"]) ∧
    (∀ r ∈ (deployRequestsService.Close c closeReq).trace,
      ∀ b, r.body = some b → b.objKeys = ["state"]) ∧
    (∀ r ∈ (deployRequestsService.Deploy c deployReq).trace,
      ∀ b, r.body = some b → b.objKeys = []) ∧
    (∀ r ∈ (deployRequestsService.CancelDeploy c cancelReq).trace,
      ∀ b, r.body = some b → b.objKeys = []) ∧
    (∀ r ∈ (deployRequestsService.CreateReview c reviewReq).trace,
      ∀ b, r.body = some b → b.objKeys = ["body", "state"]) := by
  refine ⟨?_, ?_, ?_, ?_, ?_, ?_, ?_⟩
  · intro r hr
    rw [Get_memTrace c getReq r hr]
    rfl
  · intro r hr
    rw [List_memTrace c listReq r hr]
    rfl
  · intro r hr
    rw [Create_memTrace c createReq r hr]
    refine ⟨rfl, ?_⟩
    intro b hb
    cases hb
    rfl
  · intro r hr
    rw [Close_memTrace c closeReq r hr]
    intro b hb
    cases hb
    rfl
  · intro r hr
    rw [Deploy_memTrace c deployReq r hr]
    intro b hb
    cases hb
    rfl
  · intro r hr
    rw [CancelDeploy_memTrace c cancelReq r hr]
    intro b hb
    cases hb
    rfl
  · intro r hr
    rw [CreateReview_memTrace c reviewReq r hr]
    intro b hb
    cases hb
    rfl

/-- Witness for C8 at a concrete client and concrete requests. -/
theorem c8_body_excludes_path_params_witness :
    (createRequest ⟨"o", "d", "b1", "b2", "n"⟩).body =
      some (Json.obj [("branch", Json.str "b1"), ("into_branch", Json.str "b2"),
        ("notes", Json.str "n")]) ∧
    (getRequest ⟨"o", "d", 1⟩).body = none :=
  ⟨((c8_body_excludes_path_params witClient ⟨"o", "d", 1⟩ ⟨"o", "d"⟩
      ⟨"o", "d", "b1", "b2", "n"⟩ ⟨"o", "d", 1⟩ ⟨"o", "d", 1⟩ ⟨"o", "d", 1⟩
      ⟨"o", "d", 1, "b", "s"⟩).2.2.1
      (createRequest ⟨"o", "d", "b1", "b2", "n"⟩) (List.mem_singleton.mpr rfl)).1,
    (c8_body_excludes_path_params witClient ⟨"o", "d", 1⟩ ⟨"o", "d"⟩
      ⟨"o", "d", "b1", "b2", "n"⟩ ⟨"o", "d", 1⟩ ⟨"o", "d", 1⟩ ⟨"o", "d", 1⟩
      ⟨"o", "d", 1, "b", "s"⟩).1
      (getRequest ⟨"o", "d", 1⟩) (List.mem_singleton.mpr rfl)⟩

/-- C9: every operation of both services hands the transport at most one
request per call, and exactly one whenever request construction
succeeds. -/
theorem c9_single_round_trip (c : Client)
    (listReq : ListDeployRequestsRequest)
    (createReq : CreateDeployRequestRequest)
    (getReq : GetDeployRequestRequest) (deployReq : PerformDeployRequest)
    (cancelReq : CancelDeployRequest) (closeReq : CloseDeployRequestRequest)
    (reviewReq : ReviewDeployRequestRequest)
    (pwCreateReq : DatabaseBranchPasswordRequest)
    (pwListReq : ListDatabaseBranchPasswordRequest)
    (pwGetReq : GetDatabaseBranchPasswordRequest) :
    ((deployRequestsService.List c listReq).trace.length ≤ 1 ∧
      (c.newRequestErr = none →
        (deployRequestsService.List c listReq).trace.length = 1)) ∧
    ((deployRequestsService.Create c createReq).trace.length ≤ 1 ∧
      (c.newRequestErr = none →
        (deployRequestsService.Create c createReq).trace.length = 1)) ∧
    ((deployRequestsService.Get c getReq).trace.length ≤ 1 ∧
      (c.newRequestErr = none →
        (deployRequestsService.Get c getReq).trace.length = 1)) ∧
    ((deployRequestsService.Deploy c deployReq).trace.length ≤ 1 ∧
      (c.newRequestErr = none →
        (deployRequestsService.Deploy c deployReq).trace.length = 1)) ∧
    ((deployRequestsService.CancelDeploy c cancelReq).trace.length ≤ 1 ∧
      (c.newRequestErr = none →
        (deployRequestsService.CancelDeploy c cancelReq).trace.length = 1)) ∧
    ((deployRequestsService.Close c closeReq).trace.length ≤ 1 ∧
      (c.newRequestErr = none →
        (deployRequestsService.Close c closeReq).trace.length = 1)) ∧
    ((deployRequestsService.CreateReview c reviewReq).trace.length ≤ 1 ∧
      (c.newRequestErr = none →
        (deployRequestsService.CreateReview c reviewReq).trace.length = 1)) ∧
    ((passwordsService.Create c pwCreateReq).trace.length ≤ 1 ∧
      (c.newRequestErr = none →
        (passwordsService.Create c pwCreateReq).trace.length = 1)) ∧
    ((passwordsService.List c pwListReq).trace.length ≤ 1 ∧
      (c.newRequestErr = none →
        (passwordsService.List c pwListReq).trace.length = 1)) ∧
    ((passwordsService.Get c pwGetReq).trace.length ≤ 1 ∧
      (c.newRequestErr = none →
        (passwordsService.Get c pwGetReq).trace.length = 1)) :=
  ⟨List_traceLen c listReq, Create_traceLen c createReq, Get_traceLen c getReq,
    Deploy_traceLen c deployReq, CancelDeploy_traceLen c cancelReq,
    Close_traceLen c closeReq, CreateReview_traceLen c reviewReq,
    pwCreate_traceLen c pwCreateReq, pwList_traceLen c pwListReq,
    pwGet_traceLen c pwGetReq⟩

/-- Witness for C9 at a concrete client whose request construction
succeeds: each operation performs exactly one round trip. -/
theorem c9_single_round_trip_witness :
    (deployRequestsService.List witClient ⟨"o", "d"⟩).trace.length = 1 ∧
    (passwordsService.Get witClient ⟨"o", "d", "b", "id1"⟩).trace.length = 1 :=
  ⟨(c9_single_round_trip witClient ⟨"o", "d"⟩ ⟨"o", "d", "b1", "b2", "n"⟩
      ⟨"o", "d", 1⟩ ⟨"o", "d", 1⟩ ⟨"o", "d", 1⟩ ⟨"o", "d", 1⟩
      ⟨"o", "d", 1, "b", "s"⟩ ⟨"o", "d", "b"⟩ ⟨"o", "d", "b"⟩
      ⟨"o", "d", "b", "id1"⟩).1.2 rfl,
    (c9_single_round_trip witClient ⟨"o", "d"⟩ ⟨"o", "d", "b1", "b2", "n"⟩
      ⟨"o", "d", 1⟩ ⟨"o", "d", 1⟩ ⟨"o", "d", 1⟩ ⟨"o", "d", 1⟩
      ⟨"o", "d", 1, "b", "s"⟩ ⟨"o", "d", "b"⟩ ⟨"o", "d", "b"⟩
      ⟨"o", "d", "b", "id1"⟩).2.2.2.2.2.2.2.2.2.2 rfl⟩

/-- C10 counterexample: on response body `{"data":null}` the `List`
operation returns a nil slice together with a nil error, so it is not the
case that exactly one of the returned pair is non-nil. -/
theorem c10_counterexample :
    ¬ exactlyOne
      (deployRequestsService.List (okClient (Json.obj [("data", Json.null)]))
        ⟨"o", "d"⟩).slice
      (deployRequestsService.List (okClient (Json.obj [("data", Json.null)]))
        ⟨"o", "d"⟩).error := by
  have hs : (deployRequestsService.List (okClient (Json.obj [("data", Json.null)]))
      ⟨"o", "d"⟩).slice = none := rfl
  have he : (deployRequestsService.List (okClient (Json.obj [("data", Json.null)]))
      ⟨"o", "d"⟩).error = none := rfl
  rintro (⟨h1, _⟩ | ⟨_, h2⟩)
  · rw [hs] at h1
    simp at h1
  · rw [he] at h2
    simp at h2

/-- C10 amended: for the six pointer-returning operations of the deploy
requests service exactly one of `(result, error)` is non-nil — on failure
the result is nil with no partially decoded data, on success it is the
non-nil decoded value.  For `List`, a failure still returns a nil slice
and a non-nil error, but on success the error is nil while the slice is
the decoded `data` slice, which is itself nil when the `data` key was
null or absent. -/
theorem c10_amended_result_xor_error (c : Client)
    (getReq : GetDeployRequestRequest)
    (createReq : CreateDeployRequestRequest)
    (deployReq : PerformDeployRequest) (cancelReq : CancelDeployRequest)
    (closeReq : CloseDeployRequestRequest)
    (reviewReq : ReviewDeployRequestRequest)
    (listReq : ListDeployRequestsRequest) :
    exactlyOne (deployRequestsService.Get c getReq).value
      (deployRequestsService.Get c getReq).error ∧
    exactlyOne (deployRequestsService.Create c createReq).value
      (deployRequestsService.Create c createReq).error ∧
    exactlyOne (deployRequestsService.Deploy c deployReq).value
      (deployRequestsService.Deploy c deployReq).error ∧
    exactlyOne (deployRequestsService.CancelDeploy c cancelReq).value
      (deployRequestsService.CancelDeploy c cancelReq).error ∧
    exactlyOne (deployRequestsService.Close c closeReq).value
      (deployRequestsService.Close c closeReq).error ∧
    exactlyOne (deployRequestsService.CreateReview c reviewReq).value
      (deployRequestsService.CreateReview c reviewReq).error ∧
    ((deployRequestsService.List c listReq).error.isSome →
      (deployRequestsService.List c listReq).slice = none) ∧
    ((deployRequestsService.List c listReq).error = none →
      ∃ res resp, c.transport (listRequest listReq) = .ok res ∧
        decodeDeployRequestsResponse res.body = .ok resp ∧
        (deployRequestsService.List c listReq).slice = resp.DeployRequests) := by
  refine ⟨Get_exactlyOne c getReq, Create_exactlyOne c createReq,
    Deploy_exactlyOne c deployReq, CancelDeploy_exactlyOne c cancelReq,
    Close_exactlyOne c closeReq, CreateReview_exactlyOne c reviewReq, ?_, ?_⟩ <;>
    rcases List_shape c listReq with ⟨e, hn, hop⟩ | ⟨e, hn, ht, hop⟩ |
        ⟨res, e, hn, ht, hd, hop⟩ | ⟨res, resp, hn, ht, hd, hop⟩ <;>
      rw [hop] <;> intro h
  · rfl
  · rfl
  · rfl
  · simp at h
  · simp at h
  · simp at h
  · simp at h
  · exact ⟨res, resp, ht, hd, rfl⟩

/-- Witness for C10 amended: a failing transport gives a nil slice, and a
successful empty `data` gives a non-nil empty slice with nil error. -/
theorem c10_amended_result_xor_error_witness :
    (deployRequestsService.List witClient ⟨"o", "d"⟩).slice = none ∧
    ∃ res resp,
      (okClient (Json.obj [("data", Json.arr [])])).transport (listRequest ⟨"o", "d"⟩) = .ok res ∧
      decodeDeployRequestsResponse res.body = .ok resp ∧
      (deployRequestsService.List (okClient (Json.obj [("data", Json.arr [])]))
        ⟨"o", "d"⟩).slice = resp.DeployRequests :=
  ⟨(c10_amended_result_xor_error witClient ⟨"o", "d", 1⟩
      ⟨"o", "d", "b1", "b2", "n"⟩ ⟨"o", "d", 1⟩ ⟨"o", "d", 1⟩ ⟨"o", "d", 1⟩
      ⟨"o", "d", 1, "b", "s"⟩ ⟨"o", "d"⟩).2.2.2.2.2.2.1 rfl,
    (c10_amended_result_xor_error (okClient (Json.obj [("data", Json.arr [])]))
      ⟨"o", "d", 1⟩ ⟨"o", "d", "b1", "b2", "n"⟩ ⟨"o", "d", 1⟩ ⟨"o", "d", 1⟩
      ⟨"o", "d", 1⟩ ⟨"o", "d", 1, "b", "s"⟩ ⟨"o", "d"⟩).2.2.2.2.2.2.2 rfl⟩

theorem string_length_append (a b : String) :
    (a ++ b).length = a.length + b.length := by
  cases a
  cases b
  simp only [HAppend.hAppend, Append.append, String.append, String.length]
  exact List.length_append _ _

/-- A concrete client whose transport always fails with a
connection-refused error. -/
def refusedClient : Client :=
  ⟨none, fun _ => .error ⟨"connection refused"⟩⟩

/-- A concrete client whose request construction fails (invalid base
configuration). -/
def badClient : Client :=
  ⟨some ⟨"bad base configuration"⟩, fun _ => .error ⟨"boom"⟩⟩

/-- C7 counterexample: when the transport fails with "connection
refused", `Get` surfaces that error with no prefix prepended — the
returned error is not of the form `prefix ++ ": " ++ transport error` for
any prefix, so transport failures are not wrapped. -/
theorem c7_counterexample_no_wrap :
    (deployRequestsService.Get refusedClient ⟨"o", "d", 1⟩).error =
      some ⟨"connection refused"⟩ ∧
    ¬ ∃ p, (deployRequestsService.Get refusedClient ⟨"o", "d", 1⟩).error =
      some ⟨p ++ ": " ++ "connection refused"⟩ := by
  have h0 : (deployRequestsService.Get refusedClient ⟨"o", "d", 1⟩).error =
      some ⟨"connection refused"⟩ := rfl
  refine ⟨h0, ?_⟩
  rintro ⟨p, h⟩
  rw [h0] at h
  have h2 : "connection refused" = p ++ ": " ++ "connection refused" :=
    congrArg GoError.msg (Option.some.inj h)
  have hlen := congrArg String.length h2
  rw [string_length_append, string_length_append] at hlen
  have : (": ").length = 2 := rfl
  omega

/-- C7 amended: a transport/network failure is surfaced to the caller
as-is from the transport, with no wrapping prefix, for every operation of
the deploy requests service; a request-construction failure is wrapped
with the fixed prefix "error creating http request" (which does not name
the operation) in every operation except `Create`, which returns it
as-is.  In both cases the error is returned, never swallowed. -/
theorem c7_amended_error_propagation (c : Client) (e : GoError)
    (getReq : GetDeployRequestRequest) (closeReq : CloseDeployRequestRequest)
    (deployReq : PerformDeployRequest)
    (createReq : CreateDeployRequestRequest)
    (cancelReq : CancelDeployRequest) (listReq : ListDeployRequestsRequest)
    (reviewReq : ReviewDeployRequestRequest) :
    (c.newRequestErr = none → (∀ r, c.transport r = .error e) →
      ((deployRequestsService.Get c getReq).error = some e ∧
        (deployRequestsService.Get c getReq).value = none) ∧
      ((deployRequestsService.Close c closeReq).error = some e ∧
        (deployRequestsService.Close c closeReq).value = none) ∧
      ((deployRequestsService.Deploy c deployReq).error = some e ∧
        (deployRequestsService.Deploy c deployReq).value = none) ∧
      ((deployRequestsService.Create c createReq).error = some e ∧
        (deployRequestsService.Create c createReq).value = none) ∧
      ((deployRequestsService.CancelDeploy c cancelReq).error = some e ∧
        (deployRequestsService.CancelDeploy c cancelReq).value = none) ∧
      ((deployRequestsService.List c listReq).error = some e ∧
        (deployRequestsService.List c listReq).slice = none) ∧
      ((deployRequestsService.CreateReview c reviewReq).error = some e ∧
        (deployRequestsService.CreateReview c reviewReq).value = none)) ∧
    (∀ e', c.newRequestErr = some e' →
      (deployRequestsService.Get c getReq).error =
        some (errorsWrap e' "error creating http request") ∧
      (deployRequestsService.Close c closeReq).error =
        some (errorsWrap e' "error creating http request") ∧
      (deployRequestsService.Deploy c deployReq).error =
        some (errorsWrap e' "error creating http request") ∧
      (deployRequestsService.CancelDeploy c cancelReq).error =
        some (errorsWrap e' "error creating http request") ∧
      (deployRequestsService.List c listReq).error =
        some (errorsWrap e' "error creating http request") ∧
      (deployRequestsService.CreateReview c reviewReq).error =
        some (errorsWrap e' "error creating http request") ∧
      (deployRequestsService.Create c createReq).error = some e') := by
  constructor
  · intro hn htr
    refine ⟨?_, ?_, ?_, ?_, ?_, ?_, ?_⟩
    · rw [Get_runOk c getReq hn, htr (getRequest getReq)]
      exact ⟨rfl, rfl⟩
    · rw [Close_runOk c closeReq hn, htr (closeRequest closeReq)]
      exact ⟨rfl, rfl⟩
    · rw [Deploy_runOk c deployReq hn, htr (deployRequestReq deployReq)]
      exact ⟨rfl, rfl⟩
    · rw [Create_runOk c createReq hn, htr (createRequest createReq)]
      exact ⟨rfl, rfl⟩
    · rw [CancelDeploy_runOk c cancelReq hn, htr (cancelRequest cancelReq)]
      exact ⟨rfl, rfl⟩
    · rw [List_runOk c listReq hn, htr (listRequest listReq)]
      exact ⟨rfl, rfl⟩
    · rw [CreateReview_runOk c reviewReq hn, htr (reviewRequest reviewReq)]
      exact ⟨rfl, rfl⟩
  · intro e' hn'
    refine ⟨?_, ?_, ?_, ?_, ?_, ?_, ?_⟩
    · rw [Get_runErr c getReq e' hn']
    · rw [Close_runErr c closeReq e' hn']
    · rw [Deploy_runErr c deployReq e' hn']
    · rw [CancelDeploy_runErr c cancelReq e' hn']
    · rw [List_runErr c listReq e' hn']
    · rw [CreateReview_runErr c reviewReq e' hn']
    · rw [Create_runErr c createReq e' hn']

/-- Witness for C7 amended at two concrete clients: one with a failing
transport, one with failing request construction. -/
theorem c7_amended_error_propagation_witness :
    ((deployRequestsService.Get refusedClient ⟨"o", "d", 1⟩).error =
        some ⟨"connection refused"⟩ ∧
      (deployRequestsService.Get refusedClient ⟨"o", "d", 1⟩).value = none) ∧
    (deployRequestsService.Create badClient ⟨"o", "d", "b1", "b2", "n"⟩).error =
      some ⟨"bad base configuration"⟩ :=
  ⟨((c7_amended_error_propagation refusedClient ⟨"connection refused"⟩
      ⟨"o", "d", 1⟩ ⟨"o", "d", 1⟩ ⟨"o", "d", 1⟩ ⟨"o", "d", "b1", "b2", "n"⟩
      ⟨"o", "d", 1⟩ ⟨"o", "d"⟩ ⟨"o", "d", 1, "b", "s"⟩).1 rfl
      (fun _ => rfl)).1,
    ((c7_amended_error_propagation badClient ⟨"connection refused"⟩
      ⟨"o", "d", 1⟩ ⟨"o", "d", 1⟩ ⟨"o", "d", 1⟩ ⟨"o", "d", "b1", "b2", "n"⟩
      ⟨"o", "d", 1⟩ ⟨"o", "d"⟩ ⟨"o", "d", 1, "b", "s"⟩).2
      ⟨"bad base configuration"⟩ rfl).2.2.2.2.2.2⟩

/-- C3: whenever the server reports zero deploy requests (its `data`
field is the empty array — in particular on body `{"data":[]}`), `List`
returns the empty, non-nil slice with no error; likewise
`Passwords.List` on body `{"data":[]}` returns a zero-length slice with
no error. -/
theorem c3_list_empty_not_error (c : Client) (x : ListDeployRequestsRequest)
    (res : Response) (hn : c.newRequestErr = none)
    (ht : c.transport (listRequest x) = .ok res)
    (hdata : res.body.lookup "data" = some (Json.arr [])) :
    ((deployRequestsService.List c x).slice = some [] ∧
      (deployRequestsService.List c x).error = none) ∧
    ((passwordsService.List (okClient (Json.obj [("data", Json.arr [])]))
        ⟨"o", "d", "b"⟩).slice = some [] ∧
      (passwordsService.List (okClient (Json.obj [("data", Json.arr [])]))
        ⟨"o", "d", "b"⟩).error = none) := by
  have hdec : decodeDeployRequestsResponse res.body = .ok ⟨some []⟩ := by
    cases hb : res.body <;> rw [hb] at hdata <;>
      simp only [Json.lookup] at hdata
    · cases hdata
    · cases hdata
    · cases hdata
    · cases hdata
    · cases hdata
    · unfold decodeDeployRequestsResponse
      simp only [Json.lookup]
      rw [hdata]
      rfl
  refine ⟨?_, ⟨rfl, rfl⟩⟩
  rw [List_runOk c x hn, ht]
  simp [hdec]

/-- Witness for C3 at a concrete client returning `{"data":[]}`. -/
theorem c3_list_empty_not_error_witness :
    ((deployRequestsService.List (okClient (Json.obj [("data", Json.arr [])]))
        ⟨"o", "d"⟩).slice = some [] ∧
      (deployRequestsService.List (okClient (Json.obj [("data", Json.arr [])]))
        ⟨"o", "d"⟩).error = none) ∧
    ((passwordsService.List (okClient (Json.obj [("data", Json.arr [])]))
        ⟨"o", "d", "b"⟩).slice = some [] ∧
      (passwordsService.List (okClient (Json.obj [("data", Json.arr [])]))
        ⟨"o", "d", "b"⟩).error = none) :=
  c3_list_empty_not_error (okClient (Json.obj [("data", Json.arr [])]))
    ⟨"o", "d"⟩ ⟨Json.obj [("data", Json.arr [])]⟩ rfl rfl rfl

/-- The JSON body of the C5 scenario. -/
def c5Body : Json :=
  .obj [("id", .str "x"), ("username", .str "x"), ("role", .str "writer"),
    ("plain_text", .str "secret"), ("display_name", .str "x"),
    ("created_at", .str "2021-01-14T10:19:23.000Z")]

/-- C5: on the given server response body, `Passwords.Create` returns a
password record with `Name = "x"`, `Role = "writer"`,
`PlainText = "secret"` and `CreatedAt` = January 14, 2021, 10:19:23.000
UTC, with no error. -/
theorem c5_passwords_create_scenario :
    (passwordsService.Create (okClient c5Body) ⟨"o", "d", "b"⟩).value =
      some ⟨"x", "x", "x", "writer", "secret", ⟨2021, 1, 14, 10, 19, 23, 0, 0⟩⟩ ∧
    (passwordsService.Create (okClient c5Body) ⟨"o", "d", "b"⟩).error = none :=
  ⟨rfl, rfl⟩

/-- C6: decoding the server timestamp string "2021-01-14T10:19:23.000Z"
(directly, and inside a `created_at` JSON field) yields January 14, 2021,
10:19:23.000 UTC, and decoding is idempotent: any number of decodes of
the same payload all yield that same value. -/
theorem c6_timestamp_roundtrip :
    parseRFC3339 "2021-01-14T10:19:23.000Z" =
      some ⟨2021, 1, 14, 10, 19, 23, 0, 0⟩ ∧
    decodeTimeField (Json.obj [("created_at", Json.str "2021-01-14T10:19:23.000Z")])
      "created_at" = .ok ⟨2021, 1, 14, 10, 19, 23, 0, 0⟩ ∧
    ∀ n : Nat, (List.replicate n "2021-01-14T10:19:23.000Z").map parseRFC3339 =
      List.replicate n (some ⟨2021, 1, 14, 10, 19, 23, 0, 0⟩) := by
  have h1 : parseRFC3339 "2021-01-14T10:19:23.000Z" =
      some ⟨2021, 1, 14, 10, 19, 23, 0, 0⟩ := rfl
  refine ⟨h1, rfl, ?_⟩
  intro n
  rw [List.map_replicate, h1]

/-- Witness for C6 at a concrete repetition count. -/
theorem c6_timestamp_roundtrip_witness :
    (List.replicate 3 "2021-01-14T10:19:23.000Z").map parseRFC3339 =
      List.replicate 3 (some ⟨2021, 1, 14, 10, 19, 23, 0, 0⟩) :=
  c6_timestamp_roundtrip.2.2 3

/-- Witness for C1 at concrete path-builder arguments. -/
theorem c1_path_builders_witness :
    deployRequestActionAPIPath "org" "db" 42 "deploy" =
      deployRequestAPIPath "org" "db" 42 ++ "/" ++ "deploy" ∧
    deployRequestAPIPath "org" "db" 42 =
      deployRequestsAPIPath "org" "db" ++ "/" ++ Nat.repr 42 :=
  c1_path_builders "org" "db" 42 "deploy"
